import Mathlib

/-!
Verification of the buffering / synchronization / statistics core of the
DT5743 readout program.

The C sources are embedded shallowly:

* `WDBuffers.c` — the per-board circular event queue.  A board's buffer is
  the record `WDBuffState` of the three cursors `head`, `tail`, `tmp_pos`
  (the event storage itself carries no information the verified claims
  depend on; the null-pointer guard `!buff->buffer[bd]` is modelled away by
  considering an allocated buffer).  The C `int` cursors are modelled as
  `Nat`: they start at 0 and are only ever updated through
  `(x + 1) % EVT_BUF_SIZE`, so they stay non-negative and below
  `EVT_BUF_SIZE` on every reachable state.
* `WaveDemo.c` / `ProcessesSynchronizedEvents` — one iteration of the
  per-round loop body is embedded as `syncRound`.  The peeked oldest
  events enter the round only through the reference-group coarse
  timestamp (`TDC`, a `uint64`) of each board's oldest event and through
  the per-channel `FineTimeStamp != 0` predicate, so the round takes those
  as inputs (`tdc`, `fineOk`).  uint64 arithmetic is modelled on `Nat`
  with explicit `% 2^64` where a wrap could occur.
* `WDStats.c` / `UpdateStatistics` — the per-enabled-channel body
  (lines 88–196) is embedded as `updateChannelStats`, a composition of
  stage functions, each stage a contiguous piece of the C body in source
  order.  C `float` arithmetic is modelled as exact rational arithmetic
  (the claims under scrutiny are about branch and clamp logic, exact at
  the values involved); `uint64` counters and timestamps are `Nat`, with
  `uint64` subtraction embedded as `u64sub`.
-/

/-- EVT_BUF_SIZE from WaveDemo.h: max number of events in the circular buffer. -/
def EVT_BUF_SIZE : Nat := 2000

/-- SYNC_WIN from WaveDemo.h: synchronization window in ns. -/
def SYNC_WIN : Nat := 100

/-- MAX_BD from WaveDemo.h: maximum number of boards. -/
def MAX_BD : Nat := 4

/-- 2^64, the modulus of C uint64 arithmetic. -/
def U64 : Nat := 2 ^ 64

/-- uint64 subtraction `a - b` for values `a b < 2^64`, on Nat. -/
def u64sub (a b : Nat) : Nat := (a + U64 - b) % U64

/-- The three cursors of one board's circular buffer
(fields `head[bd]`, `tail[bd]`, `tmp_pos[bd]` of `WaveDemoBuffers_t`). -/
structure WDBuffState where
  head : Nat
  tail : Nat
  tmp_pos : Nat
deriving Repr, DecidableEq

/-- WDBuff_reset: head = tail = tmp_pos = 0 (for an allocated buffer). -/
def WDBuff_reset : WDBuffState := ⟨0, 0, 0⟩

/-- WDBuff_empty: empty is defined as head == tail. -/
def WDBuff_empty (s : WDBuffState) : Bool := s.head == s.tail

/-- WDBuff_full: full is head being one position behind the tail
(one slot is wasted by design). -/
def WDBuff_full (s : WDBuffState) : Bool := (s.head + 1) % EVT_BUF_SIZE == s.tail

/-- WDBuff_used_space, returning a C int (modelled as `Int`):
`head - tail` when `head >= tail`, else `EVT_BUF_SIZE - tail + head`. -/
def WDBuff_used_space (s : WDBuffState) : Int :=
  if s.tail ≤ s.head then (s.head : Int) - s.tail
  else (EVT_BUF_SIZE : Int) - s.tail + s.head

/-- WDBuff_free_space. -/
def WDBuff_free_space (s : WDBuffState) : Int :=
  if WDBuff_full s then 0
  else if s.tail ≤ s.head then (EVT_BUF_SIZE : Int) - 1 - (s.head - s.tail)
  else (s.tail : Int) - s.head - 1

/-- The loop body of WDBuff_remove: advance `tail` up to `n` times, stopping
early when the buffer becomes empty; returns the number of steps taken. -/
def removeLoop : Nat → WDBuffState → Nat × WDBuffState
  | 0, s => (0, s)
  | n + 1, s =>
    if WDBuff_empty s then (0, s)
    else
      let s1 : WDBuffState := { s with tail := (s.tail + 1) % EVT_BUF_SIZE }
      let r := removeLoop n s1
      (r.1 + 1, r.2)

/-- WDBuff_remove: `-1` on a negative count, otherwise the number of events
actually discarded together with the new state. -/
def WDBuff_remove (s : WDBuffState) (num : Int) : Int × WDBuffState :=
  if num < 0 then (-1, s)
  else
    let r := removeLoop num.toNat s
    ((r.1 : Int), r.2)

/-- The loop body of WDBuff_added: advance `head` up to `n` times, stopping
early when the buffer becomes full; returns the number of steps taken. -/
def addLoop : Nat → WDBuffState → Nat × WDBuffState
  | 0, s => (0, s)
  | n + 1, s =>
    if WDBuff_full s then (0, s)
    else
      let s1 : WDBuffState := { s with head := (s.head + 1) % EVT_BUF_SIZE }
      let r := addLoop n s1
      (r.1 + 1, r.2)

/-- WDBuff_added: `-1` on a negative count, otherwise the number of slots
actually committed together with the new state. -/
def WDBuff_added (s : WDBuffState) (num : Int) : Int × WDBuffState :=
  if num < 0 then (-1, s)
  else
    let r := addLoop num.toNat s
    ((r.1 : Int), r.2)

/-- WDBuff_set_position: fails with `-1` when the buffer is empty, when
`pos` is outside `[0, EVT_BUF_SIZE)`, or when `pos >= head || pos < tail`
(a plain, non-circular comparison in the C source); otherwise stores `pos`
in the scan cursor `tmp_pos` and returns `0`. -/
def WDBuff_set_position (s : WDBuffState) (pos : Int) : Int × WDBuffState :=
  if WDBuff_empty s then (-1, s)
  else if pos < 0 ∨ (EVT_BUF_SIZE : Int) ≤ pos then (-1, s)
  else if (s.head : Int) ≤ pos ∨ pos < (s.tail : Int) then (-1, s)
  else (0, { s with tmp_pos := pos.toNat })

/-- An operation on one board's buffer: reset, commitWrites or discardOldest. -/
inductive BuffOp where
  | reset : BuffOp
  | added : Int → BuffOp
  | remove : Int → BuffOp
deriving Repr, DecidableEq

/-- Apply one buffer operation (result codes discarded). -/
def applyOp (s : WDBuffState) : BuffOp → WDBuffState
  | BuffOp.reset => WDBuff_reset
  | BuffOp.added n => (WDBuff_added s n).2
  | BuffOp.remove n => (WDBuff_remove s n).2

/-- Apply a sequence of buffer operations from the left. -/
def applyOps (l : List BuffOp) (s : WDBuffState) : WDBuffState :=
  l.foldl applyOp s

/-- Cursor sanity: both `head` and `tail` lie below the capacity. -/
def cursorsInRange (s : WDBuffState) : Prop :=
  s.head < EVT_BUF_SIZE ∧ s.tail < EVT_BUF_SIZE

theorem removeLoop_cursors (n : Nat) (s : WDBuffState) (h : cursorsInRange s) :
    cursorsInRange (removeLoop n s).2 ∧ (removeLoop n s).2.head = s.head := by
  induction n generalizing s with
  | zero => exact ⟨h, rfl⟩
  | succ k ih =>
    by_cases he : WDBuff_empty s
    · simp [removeLoop, he]; exact ⟨h.1, h.2⟩
    · have h1 : cursorsInRange { s with tail := (s.tail + 1) % EVT_BUF_SIZE } := by
        refine ⟨h.1, ?_⟩
        exact Nat.mod_lt _ (by decide)
      have := ih _ h1
      simpa [removeLoop, he] using this

theorem addLoop_cursors (n : Nat) (s : WDBuffState) (h : cursorsInRange s) :
    cursorsInRange (addLoop n s).2 ∧ (addLoop n s).2.tail = s.tail := by
  induction n generalizing s with
  | zero => exact ⟨h, rfl⟩
  | succ k ih =>
    by_cases hf : WDBuff_full s
    · simp [addLoop, hf]; exact ⟨h.1, h.2⟩
    · have h1 : cursorsInRange { s with head := (s.head + 1) % EVT_BUF_SIZE } := by
        refine ⟨?_, h.2⟩
        exact Nat.mod_lt _ (by decide)
      have := ih _ h1
      simpa [addLoop, hf] using this

theorem applyOp_cursors (s : WDBuffState) (op : BuffOp) (h : cursorsInRange s) :
    cursorsInRange (applyOp s op) := by
  cases op with
  | reset => exact (show cursorsInRange WDBuff_reset from ⟨by decide, by decide⟩)
  | added n =>
    by_cases hn : n < 0
    · simpa [applyOp, WDBuff_added, hn] using h
    · simpa [applyOp, WDBuff_added, hn] using (addLoop_cursors n.toNat s h).1
  | remove n =>
    by_cases hn : n < 0
    · simpa [applyOp, WDBuff_remove, hn] using h
    · simpa [applyOp, WDBuff_remove, hn] using (removeLoop_cursors n.toNat s h).1

theorem applyOps_cursors (l : List BuffOp) (s : WDBuffState) (h : cursorsInRange s) :
    cursorsInRange (applyOps l s) := by
  induction l generalizing s with
  | nil => exact h
  | cons op tl ih => exact ih _ (applyOp_cursors s op h)

theorem used_space_bounds (s : WDBuffState) (h : cursorsInRange s) :
    0 ≤ WDBuff_used_space s ∧ WDBuff_used_space s ≤ (EVT_BUF_SIZE : Int) - 1 := by
  obtain ⟨h1, h2⟩ := h
  unfold WDBuff_used_space
  unfold EVT_BUF_SIZE at *
  split <;> omega

theorem full_iff_used_space (s : WDBuffState) (h : cursorsInRange s) :
    WDBuff_full s = true ↔ WDBuff_used_space s = (EVT_BUF_SIZE : Int) - 1 := by
  obtain ⟨h1, h2⟩ := h
  unfold WDBuff_full WDBuff_used_space
  unfold EVT_BUF_SIZE at *
  simp only [beq_iff_eq]
  split <;> omega

/-- C3: for every sequence of reset / commitWrites / discardOldest operations
starting from the reset state, every state so reached (and hence every
intermediate state, each being reached by a prefix of some sequence)
satisfies `0 ≤ usedSpace ≤ EVT_BUF_SIZE - 1`, and `WDBuff_full` holds
exactly when `usedSpace = EVT_BUF_SIZE - 1 = 1999`. -/
theorem C3_ring_capacity_invariant (l : List BuffOp) :
    (0 ≤ WDBuff_used_space (applyOps l WDBuff_reset) ∧
      WDBuff_used_space (applyOps l WDBuff_reset) ≤ (EVT_BUF_SIZE : Int) - 1) ∧
    (WDBuff_full (applyOps l WDBuff_reset) = true ↔
      WDBuff_used_space (applyOps l WDBuff_reset) = (EVT_BUF_SIZE : Int) - 1) := by
  have h : cursorsInRange (applyOps l WDBuff_reset) :=
    applyOps_cursors l WDBuff_reset ⟨by decide, by decide⟩
  exact ⟨used_space_bounds _ h, full_iff_used_space _ h⟩

/-- C6 counterexample: in the wrapped, non-empty state with head = 1 and
tail = 1998, the slot 1999 is logically inside the circular used region
(it is the slot one step past the tail, and three slots are in use), yet
`WDBuff_set_position` rejects it and leaves the state unchanged, because
the source compares `pos` to `head` and `tail` linearly, not circularly. -/
theorem C6_counterexample :
    WDBuff_empty ⟨1, 1998, 1998⟩ = false ∧
    (1999 : Nat) = (1998 + 1) % EVT_BUF_SIZE ∧
    WDBuff_used_space ⟨1, 1998, 1998⟩ = 3 ∧
    WDBuff_set_position ⟨1, 1998, 1998⟩ 1999 = (-1, ⟨1, 1998, 1998⟩) := by
  refine ⟨rfl, by decide, by decide, by decide⟩

/-- C6 amended: `WDBuff_set_position` succeeds (returns 0 and stores `pos`
in the scan cursor) exactly when the buffer is non-empty and
`tail ≤ pos < head` holds as a plain (non-circular) comparison; hence in a
wrapped state (`head < tail`) every position is rejected.  On failure it
returns -1 and leaves the buffer unchanged. -/
theorem C6_set_position_amended (s : WDBuffState) (pos : Int) (h : cursorsInRange s) :
    ((WDBuff_set_position s pos).1 = 0 ↔
      s.head ≠ s.tail ∧ (s.tail : Int) ≤ pos ∧ pos < (s.head : Int)) ∧
    ((WDBuff_set_position s pos).1 = 0 →
      (WDBuff_set_position s pos).2 = { s with tmp_pos := pos.toNat }) ∧
    ((WDBuff_set_position s pos).1 ≠ 0 →
      (WDBuff_set_position s pos).1 = -1 ∧ (WDBuff_set_position s pos).2 = s) := by
  obtain ⟨h1, h2⟩ := h
  have hE : EVT_BUF_SIZE = 2000 := rfl
  rw [hE] at h1 h2
  by_cases he : s.head = s.tail
  · have hres : WDBuff_set_position s pos = (-1, s) := by
      unfold WDBuff_set_position
      rw [if_pos (by simp [WDBuff_empty, he])]
    rw [hres]
    refine ⟨by simp [he], by simp, fun _ => ⟨rfl, rfl⟩⟩
  · by_cases hin : (s.tail : Int) ≤ pos ∧ pos < (s.head : Int)
    · have hres : WDBuff_set_position s pos = (0, { s with tmp_pos := pos.toNat }) := by
        unfold WDBuff_set_position
        rw [if_neg (by simp [WDBuff_empty, he]), if_neg (by rw [hE]; push_neg; omega),
          if_neg (by push_neg; omega)]
      rw [hres]
      exact ⟨by simp [he, hin], fun _ => rfl, by simp⟩
    · have hres : WDBuff_set_position s pos = (-1, s) := by
        unfold WDBuff_set_position
        rw [if_neg (by simp [WDBuff_empty, he])]
        by_cases hr : pos < 0 ∨ (EVT_BUF_SIZE : Int) ≤ pos
        · rw [if_pos hr]
        · rw [if_neg hr, if_pos (by push_neg at hin; omega)]
      rw [hres]
      refine ⟨by simp [he, hin], by simp, fun _ => ⟨rfl, rfl⟩⟩

/-- C6 witness: a concrete successful call of the amended characterization,
in the non-wrapped state head = 5, tail = 2, at position 3. -/
theorem C6_set_position_witness :
    cursorsInRange ⟨5, 2, 7⟩ ∧
    (((WDBuff_set_position ⟨5, 2, 7⟩ 3).1 = 0 ↔
        (5 : Nat) ≠ 2 ∧ (2 : Int) ≤ 3 ∧ (3 : Int) < 5) ∧
      ((WDBuff_set_position ⟨5, 2, 7⟩ 3).1 = 0 →
        (WDBuff_set_position ⟨5, 2, 7⟩ 3).2 = ⟨5, 2, 3⟩) ∧
      ((WDBuff_set_position ⟨5, 2, 7⟩ 3).1 ≠ 0 →
        (WDBuff_set_position ⟨5, 2, 7⟩ 3).1 = -1 ∧
          (WDBuff_set_position ⟨5, 2, 7⟩ 3).2 = ⟨5, 2, 7⟩)) :=
  ⟨⟨by decide, by decide⟩, C6_set_position_amended ⟨5, 2, 7⟩ 3 ⟨by decide, by decide⟩⟩

/-- Static configuration seen by ProcessesSynchronizedEvents: the number of
active boards (`WDcfg.NumBoards`), each board's channel count
(`WDcfg.handles[bd].Nch`) and the per-channel enable flags
(`WDcfg.boards[bd].channels[ch].ChannelEnable`). -/
structure SyncConfig where
  NumBoards : Nat
  Nch : Nat → Nat
  ChannelEnable : Nat → Nat → Bool

/-- The mutable state touched by one round of ProcessesSynchronizedEvents:
the per-board ring buffers and the counters of `WDstats` the round updates.
Counters are total maps from (board, channel). -/
structure SyncState where
  bufs : Nat → WDBuffState
  EvFilt_cnt : Nat → Nat → Nat
  EvLost_cnt : Nat → Nat → Nat
  EvProcessed_cnt : Nat → Nat → Nat
  UnSyncEv_cnt : Nat

/-- The minimum-accumulating fold used to compute the round minimum
timestamp: the body of `if (TDC < TDC_min) TDC_min = TDC`. -/
def foldMinAux (tdc : Nat → Nat) (l : List Nat) (a : Nat) : Nat :=
  l.foldl (fun m bd => if tdc bd < m then tdc bd else m) a

/-- The round minimum timestamp: initialised from board 0's peeked event
and folded over boards 1 .. NumBoards-1, as in the source. -/
def TDC_min (N : Nat) (tdc : Nat → Nat) : Nat :=
  foldMinAux tdc (List.range' 1 (N - 1)) (tdc 0)

/-- Board `bd` is marked matched when its peeked timestamp's offset from the
round minimum, in ticks times 5 ns, is at most SYNC_WIN.  The offset and
the product are uint64 arithmetic; the difference cannot wrap because
`TDC_min ≤ tdc bd` on the evaluated range, the product is reduced mod 2^64. -/
def event_good (N : Nat) (tdc : Nat → Nat) (bd : Nat) : Bool :=
  decide ((tdc bd - TDC_min N tdc) * 5 % U64 ≤ SYNC_WIN)

/-- The number of matched boards in the round (`count_sync_evt`). -/
def count_sync_evt (N : Nat) (tdc : Nat → Nat) : Nat :=
  (List.range N).countP (fun bd => event_good N tdc bd)

/-- The per-channel counter loop `for (ch...) if (enable-condition) cnt++`
over one board's row, as a fold over the channel indices. -/
def bumpChans (n : Nat) (en : Nat → Bool) (f : Nat → Nat) : Nat → Nat :=
  (List.range n).foldl
    (fun g ch => if en ch then (fun c => if c = ch then g c + 1 else g c) else g) f

/-- The `if (event_good[bd]) { ... }` block at the end of a round, for one
board: on a full match the filtered counter is bumped for every enabled
channel whose event has a nonzero fine timestamp, otherwise the lost
counter is bumped for every enabled channel; then one event is removed
from the board's buffer and the processed counter is bumped for every
enabled channel.  The block touches only board `bd`'s buffer and counter
rows (the four statements update distinct fields, so they are written as
one record update). -/
def boardStep (cfg : SyncConfig) (tdc : Nat → Nat) (fineOk : Nat → Nat → Bool)
    (S : SyncState) (bd : Nat) : SyncState :=
  if event_good cfg.NumBoards tdc bd = true then
    { bufs := fun b => if b = bd then (WDBuff_remove (S.bufs bd) 1).2 else S.bufs b
      EvFilt_cnt := fun b =>
        if b = bd ∧ count_sync_evt cfg.NumBoards tdc = cfg.NumBoards then
          bumpChans (cfg.Nch bd) (fun ch => cfg.ChannelEnable bd ch && fineOk bd ch)
            (S.EvFilt_cnt bd)
        else S.EvFilt_cnt b
      EvLost_cnt := fun b =>
        if b = bd ∧ ¬count_sync_evt cfg.NumBoards tdc = cfg.NumBoards then
          bumpChans (cfg.Nch bd) (cfg.ChannelEnable bd) (S.EvLost_cnt bd)
        else S.EvLost_cnt b
      EvProcessed_cnt := fun b =>
        if b = bd then bumpChans (cfg.Nch bd) (cfg.ChannelEnable bd) (S.EvProcessed_cnt b)
        else S.EvProcessed_cnt b
      UnSyncEv_cnt := S.UnSyncEv_cnt }
  else S

/-- One iteration of the round loop of ProcessesSynchronizedEvents: abort
when some board's buffer is empty; otherwise, when the matched count falls
short of the board count, add the number of unmatched boards to the
unsynchronized-event counter (uint64) and test the warning condition
`UnSyncEv_cnt == 0` on the incremented value, exactly as the source does;
finally run the per-board block over all boards.  The returned Bool
records whether the operator warning was emitted. -/
def syncRound (cfg : SyncConfig) (tdc : Nat → Nat) (fineOk : Nat → Nat → Bool)
    (st : SyncState) : SyncState × Bool :=
  if (List.range cfg.NumBoards).any (fun bd => WDBuff_empty (st.bufs bd)) then (st, false)
  else
    let st1 :=
      if count_sync_evt cfg.NumBoards tdc = cfg.NumBoards then st
      else { st with UnSyncEv_cnt :=
        (st.UnSyncEv_cnt + (cfg.NumBoards - count_sync_evt cfg.NumBoards tdc)) % U64 }
    let warned :=
      if count_sync_evt cfg.NumBoards tdc = cfg.NumBoards then false
      else decide ((st.UnSyncEv_cnt +
        (cfg.NumBoards - count_sync_evt cfg.NumBoards tdc)) % U64 = 0)
    ((List.range cfg.NumBoards).foldl (boardStep cfg tdc fineOk) st1, warned)

theorem foldMinAux_le_init (tdc : Nat → Nat) (l : List Nat) (a : Nat) :
    foldMinAux tdc l a ≤ a := by
  induction l generalizing a with
  | nil => exact Nat.le_refl a
  | cons bd tl ih =>
    show foldMinAux tdc tl (if tdc bd < a then tdc bd else a) ≤ a
    refine Nat.le_trans (ih _) ?_
    split <;> omega

theorem foldMinAux_le_mem (tdc : Nat → Nat) (l : List Nat) (a : Nat) (bd : Nat)
    (h : bd ∈ l) : foldMinAux tdc l a ≤ tdc bd := by
  induction l generalizing a with
  | nil => cases h
  | cons hd tl ih =>
    rcases List.mem_cons.mp h with hbd | hbd
    · subst hbd
      show foldMinAux tdc tl (if tdc bd < a then tdc bd else a) ≤ tdc bd
      refine Nat.le_trans (foldMinAux_le_init tdc tl _) ?_
      split <;> omega
    · exact ih _ hbd

theorem foldMinAux_attained (tdc : Nat → Nat) (l : List Nat) (a : Nat) :
    foldMinAux tdc l a = a ∨ ∃ bd ∈ l, foldMinAux tdc l a = tdc bd := by
  induction l generalizing a with
  | nil => exact Or.inl rfl
  | cons hd tl ih =>
    have hstep : foldMinAux tdc (hd :: tl) a
        = foldMinAux tdc tl (if tdc hd < a then tdc hd else a) := rfl
    rcases ih (if tdc hd < a then tdc hd else a) with h | ⟨bd, hbd, hval⟩
    · rw [hstep, h]
      by_cases hc : tdc hd < a
      · exact Or.inr ⟨hd, List.mem_cons_self hd tl, by rw [if_pos hc]⟩
      · exact Or.inl (by rw [if_neg hc])
    · exact Or.inr ⟨bd, List.mem_cons_of_mem hd hbd, by rw [hstep, hval]⟩

theorem TDC_min_le (N : Nat) (tdc : Nat → Nat) (bd : Nat) (h1 : 1 ≤ N) (h : bd < N) :
    TDC_min N tdc ≤ tdc bd := by
  rcases Nat.eq_zero_or_pos bd with h0 | hpos
  · subst h0; exact foldMinAux_le_init tdc _ _
  · refine foldMinAux_le_mem tdc _ _ bd ?_
    have : bd ∈ List.range' 1 (N - 1) := by
      rw [List.mem_range'_1]
      omega
    exact this

theorem TDC_min_attained (N : Nat) (tdc : Nat → Nat) (h1 : 1 ≤ N) :
    ∃ bd, bd < N ∧ TDC_min N tdc = tdc bd := by
  rcases foldMinAux_attained tdc (List.range' 1 (N - 1)) (tdc 0) with h | ⟨bd, hbd, hval⟩
  · exact ⟨0, h1, h⟩
  · rw [List.mem_range'_1] at hbd
    exact ⟨bd, by omega, hval⟩

theorem bumpChans_apply (n : Nat) (en : Nat → Bool) (f : Nat → Nat) (c : Nat) :
    bumpChans n en f c = if c < n ∧ en c = true then f c + 1 else f c := by
  induction n with
  | zero => simp [bumpChans]
  | succ k ih =>
    have hstep : bumpChans (k + 1) en f c
        = if en k = true then
            (if c = k then bumpChans k en f c + 1 else bumpChans k en f c)
          else bumpChans k en f c := by
      show ((List.range (k + 1)).foldl
        (fun g ch => if en ch then (fun c => if c = ch then g c + 1 else g c) else g) f) c = _
      rw [List.range_succ, List.foldl_append, List.foldl_cons, List.foldl_nil]
      by_cases hek : en k = true
      · rw [if_pos hek, if_pos hek]; rfl
      · rw [if_neg hek, if_neg hek]; rfl
    rw [hstep]
    by_cases hek : en k = true
    · rw [if_pos hek]
      by_cases hc : c = k
      · subst hc
        rw [if_pos rfl, ih, if_neg (by omega), if_pos ⟨Nat.lt_succ_self c, hek⟩]
      · rw [if_neg hc, ih]
        by_cases h2 : c < k ∧ en c = true
        · rw [if_pos h2, if_pos ⟨by omega, h2.2⟩]
        · rw [if_neg h2, if_neg (by rintro ⟨h3, h4⟩; exact h2 ⟨by omega, h4⟩)]
    · rw [if_neg hek, ih]
      by_cases hck : c = k
      · subst hck
        rw [if_neg (fun h => absurd h.1 (Nat.lt_irrefl c)),
          if_neg (fun h => hek h.2)]
      · by_cases h2 : c < k ∧ en c = true
        · rw [if_pos h2, if_pos ⟨by omega, h2.2⟩]
        · rw [if_neg h2, if_neg (by rintro ⟨h3, h4⟩; exact h2 ⟨by omega, h4⟩)]

theorem boardStep_UnSync (cfg : SyncConfig) (tdc : Nat → Nat) (fineOk : Nat → Nat → Bool)
    (S : SyncState) (bd : Nat) :
    (boardStep cfg tdc fineOk S bd).UnSyncEv_cnt = S.UnSyncEv_cnt := by
  unfold boardStep
  by_cases hg : event_good cfg.NumBoards tdc bd = true
  · rw [if_pos hg]
  · rw [if_neg hg]

theorem boardStep_bufs (cfg : SyncConfig) (tdc : Nat → Nat) (fineOk : Nat → Nat → Bool)
    (S : SyncState) (bd b : Nat) :
    (boardStep cfg tdc fineOk S bd).bufs b =
      if event_good cfg.NumBoards tdc bd = true ∧ b = bd
      then (WDBuff_remove (S.bufs bd) 1).2 else S.bufs b := by
  by_cases hg : event_good cfg.NumBoards tdc bd = true
  · have h1 : (boardStep cfg tdc fineOk S bd).bufs b
        = if b = bd then (WDBuff_remove (S.bufs bd) 1).2 else S.bufs b := by
      unfold boardStep; rw [if_pos hg]
    rw [h1]
    by_cases hb : b = bd
    · rw [if_pos hb, if_pos ⟨hg, hb⟩]
    · rw [if_neg hb, if_neg (fun h => hb h.2)]
  · have h1 : boardStep cfg tdc fineOk S bd = S := by
      unfold boardStep; rw [if_neg hg]
    rw [h1, if_neg (fun h => hg h.1)]

theorem boardStep_Proc (cfg : SyncConfig) (tdc : Nat → Nat) (fineOk : Nat → Nat → Bool)
    (S : SyncState) (bd b : Nat) :
    (boardStep cfg tdc fineOk S bd).EvProcessed_cnt b =
      if event_good cfg.NumBoards tdc bd = true ∧ b = bd
      then bumpChans (cfg.Nch bd) (cfg.ChannelEnable bd) (S.EvProcessed_cnt b)
      else S.EvProcessed_cnt b := by
  by_cases hg : event_good cfg.NumBoards tdc bd = true
  · have h1 : (boardStep cfg tdc fineOk S bd).EvProcessed_cnt b
        = if b = bd then bumpChans (cfg.Nch bd) (cfg.ChannelEnable bd) (S.EvProcessed_cnt b)
          else S.EvProcessed_cnt b := by
      unfold boardStep; rw [if_pos hg]
    rw [h1]
    by_cases hb : b = bd
    · rw [if_pos hb, if_pos ⟨hg, hb⟩]
    · rw [if_neg hb, if_neg (fun h => hb h.2)]
  · have h1 : boardStep cfg tdc fineOk S bd = S := by
      unfold boardStep; rw [if_neg hg]
    rw [h1, if_neg (fun h => hg h.1)]

theorem boardStep_Lost (cfg : SyncConfig) (tdc : Nat → Nat) (fineOk : Nat → Nat → Bool)
    (S : SyncState) (bd b : Nat) :
    (boardStep cfg tdc fineOk S bd).EvLost_cnt b =
      if event_good cfg.NumBoards tdc bd = true ∧ b = bd ∧
          ¬count_sync_evt cfg.NumBoards tdc = cfg.NumBoards
      then bumpChans (cfg.Nch bd) (cfg.ChannelEnable bd) (S.EvLost_cnt bd)
      else S.EvLost_cnt b := by
  by_cases hg : event_good cfg.NumBoards tdc bd = true
  · have h1 : (boardStep cfg tdc fineOk S bd).EvLost_cnt b
        = if b = bd ∧ ¬count_sync_evt cfg.NumBoards tdc = cfg.NumBoards
          then bumpChans (cfg.Nch bd) (cfg.ChannelEnable bd) (S.EvLost_cnt bd)
          else S.EvLost_cnt b := by
      unfold boardStep; rw [if_pos hg]
    rw [h1]
    by_cases hb : b = bd ∧ ¬count_sync_evt cfg.NumBoards tdc = cfg.NumBoards
    · rw [if_pos hb, if_pos ⟨hg, hb⟩]
    · rw [if_neg hb, if_neg (fun h => hb h.2)]
  · have h1 : boardStep cfg tdc fineOk S bd = S := by
      unfold boardStep; rw [if_neg hg]
    rw [h1, if_neg (fun h => hg h.1)]

theorem boardStep_Filt (cfg : SyncConfig) (tdc : Nat → Nat) (fineOk : Nat → Nat → Bool)
    (S : SyncState) (bd b : Nat) :
    (boardStep cfg tdc fineOk S bd).EvFilt_cnt b =
      if event_good cfg.NumBoards tdc bd = true ∧ b = bd ∧
          count_sync_evt cfg.NumBoards tdc = cfg.NumBoards
      then bumpChans (cfg.Nch bd) (fun ch => cfg.ChannelEnable bd ch && fineOk bd ch)
        (S.EvFilt_cnt bd)
      else S.EvFilt_cnt b := by
  by_cases hg : event_good cfg.NumBoards tdc bd = true
  · have h1 : (boardStep cfg tdc fineOk S bd).EvFilt_cnt b
        = if b = bd ∧ count_sync_evt cfg.NumBoards tdc = cfg.NumBoards
          then bumpChans (cfg.Nch bd) (fun ch => cfg.ChannelEnable bd ch && fineOk bd ch)
            (S.EvFilt_cnt bd)
          else S.EvFilt_cnt b := by
      unfold boardStep; rw [if_pos hg]
    rw [h1]
    by_cases hb : b = bd ∧ count_sync_evt cfg.NumBoards tdc = cfg.NumBoards
    · rw [if_pos hb, if_pos ⟨hg, hb⟩]
    · rw [if_neg hb, if_neg (fun h => hb h.2)]
  · have h1 : boardStep cfg tdc fineOk S bd = S := by
      unfold boardStep; rw [if_neg hg]
    rw [h1, if_neg (fun h => hg h.1)]

theorem foldl_boardStep_UnSync (cfg : SyncConfig) (tdc : Nat → Nat)
    (fineOk : Nat → Nat → Bool) (n : Nat) (st : SyncState) :
    ((List.range n).foldl (boardStep cfg tdc fineOk) st).UnSyncEv_cnt = st.UnSyncEv_cnt := by
  induction n generalizing st with
  | zero => rfl
  | succ k ih =>
    rw [List.range_succ, List.foldl_append, List.foldl_cons, List.foldl_nil,
      boardStep_UnSync, ih]

theorem foldl_boardStep_bufs (cfg : SyncConfig) (tdc : Nat → Nat)
    (fineOk : Nat → Nat → Bool) (n : Nat) (st : SyncState) (b : Nat) :
    ((List.range n).foldl (boardStep cfg tdc fineOk) st).bufs b =
      if b < n ∧ event_good cfg.NumBoards tdc b = true
      then (WDBuff_remove (st.bufs b) 1).2 else st.bufs b := by
  induction n with
  | zero => rw [if_neg (by rintro ⟨h1, _⟩; omega)]; rfl
  | succ k ih =>
    rw [List.range_succ, List.foldl_append, List.foldl_cons, List.foldl_nil,
      boardStep_bufs]
    by_cases hb : b = k
    · subst hb
      by_cases hg : event_good cfg.NumBoards tdc b = true
      · rw [if_pos ⟨hg, rfl⟩, ih, if_neg (by rintro ⟨h1, _⟩; omega),
          if_pos ⟨Nat.lt_succ_self b, hg⟩]
      · rw [if_neg (by rintro ⟨h1, _⟩; exact hg h1), ih,
          if_neg (by rintro ⟨h1, _⟩; omega), if_neg (by rintro ⟨_, h2⟩; exact hg h2)]
    · rw [if_neg (by rintro ⟨_, h2⟩; exact hb h2), ih]
      by_cases h2 : b < k ∧ event_good cfg.NumBoards tdc b = true
      · rw [if_pos h2, if_pos ⟨by omega, h2.2⟩]
      · rw [if_neg h2, if_neg (by rintro ⟨h3, h4⟩; exact h2 ⟨by omega, h4⟩)]

theorem foldl_boardStep_Proc (cfg : SyncConfig) (tdc : Nat → Nat)
    (fineOk : Nat → Nat → Bool) (n : Nat) (st : SyncState) (b : Nat) :
    ((List.range n).foldl (boardStep cfg tdc fineOk) st).EvProcessed_cnt b =
      if b < n ∧ event_good cfg.NumBoards tdc b = true
      then bumpChans (cfg.Nch b) (cfg.ChannelEnable b) (st.EvProcessed_cnt b)
      else st.EvProcessed_cnt b := by
  induction n with
  | zero => rw [if_neg (by rintro ⟨h1, _⟩; omega)]; rfl
  | succ k ih =>
    rw [List.range_succ, List.foldl_append, List.foldl_cons, List.foldl_nil,
      boardStep_Proc]
    by_cases hb : b = k
    · subst hb
      by_cases hg : event_good cfg.NumBoards tdc b = true
      · rw [if_pos ⟨hg, rfl⟩, ih, if_neg (by rintro ⟨h1, _⟩; omega),
          if_pos ⟨Nat.lt_succ_self b, hg⟩]
      · rw [if_neg (by rintro ⟨h1, _⟩; exact hg h1), ih,
          if_neg (by rintro ⟨h1, _⟩; omega), if_neg (by rintro ⟨_, h2⟩; exact hg h2)]
    · rw [if_neg (by rintro ⟨_, h2⟩; exact hb h2), ih]
      by_cases h2 : b < k ∧ event_good cfg.NumBoards tdc b = true
      · rw [if_pos h2, if_pos ⟨by omega, h2.2⟩]
      · rw [if_neg h2, if_neg (by rintro ⟨h3, h4⟩; exact h2 ⟨by omega, h4⟩)]

theorem foldl_boardStep_Lost (cfg : SyncConfig) (tdc : Nat → Nat)
    (fineOk : Nat → Nat → Bool) (n : Nat) (st : SyncState) (b : Nat) :
    ((List.range n).foldl (boardStep cfg tdc fineOk) st).EvLost_cnt b =
      if b < n ∧ event_good cfg.NumBoards tdc b = true ∧
          ¬count_sync_evt cfg.NumBoards tdc = cfg.NumBoards
      then bumpChans (cfg.Nch b) (cfg.ChannelEnable b) (st.EvLost_cnt b)
      else st.EvLost_cnt b := by
  induction n with
  | zero => rw [if_neg (by rintro ⟨h1, _⟩; omega)]; rfl
  | succ k ih =>
    rw [List.range_succ, List.foldl_append, List.foldl_cons, List.foldl_nil,
      boardStep_Lost]
    by_cases hb : b = k
    · subst hb
      by_cases hg : event_good cfg.NumBoards tdc b = true ∧
          ¬count_sync_evt cfg.NumBoards tdc = cfg.NumBoards
      · rw [if_pos ⟨hg.1, rfl, hg.2⟩, ih, if_neg (by rintro ⟨h1, _⟩; omega),
          if_pos ⟨Nat.lt_succ_self b, hg⟩]
      · rw [if_neg (by rintro ⟨h1, h2, h3⟩; exact hg ⟨h1, h3⟩), ih,
          if_neg (by rintro ⟨h1, _⟩; omega),
          if_neg (by rintro ⟨_, h2⟩; exact hg h2)]
    · rw [if_neg (by rintro ⟨_, h2, _⟩; exact hb h2), ih]
      by_cases h2 : b < k ∧ event_good cfg.NumBoards tdc b = true ∧
          ¬count_sync_evt cfg.NumBoards tdc = cfg.NumBoards
      · rw [if_pos h2, if_pos ⟨by omega, h2.2⟩]
      · rw [if_neg h2, if_neg (by rintro ⟨h3, h4⟩; exact h2 ⟨by omega, h4⟩)]

theorem foldl_boardStep_Filt (cfg : SyncConfig) (tdc : Nat → Nat)
    (fineOk : Nat → Nat → Bool) (n : Nat) (st : SyncState) (b : Nat) :
    ((List.range n).foldl (boardStep cfg tdc fineOk) st).EvFilt_cnt b =
      if b < n ∧ event_good cfg.NumBoards tdc b = true ∧
          count_sync_evt cfg.NumBoards tdc = cfg.NumBoards
      then bumpChans (cfg.Nch b) (fun ch => cfg.ChannelEnable b ch && fineOk b ch)
        (st.EvFilt_cnt b)
      else st.EvFilt_cnt b := by
  induction n with
  | zero => rw [if_neg (by rintro ⟨h1, _⟩; omega)]; rfl
  | succ k ih =>
    rw [List.range_succ, List.foldl_append, List.foldl_cons, List.foldl_nil,
      boardStep_Filt]
    by_cases hb : b = k
    · subst hb
      by_cases hg : event_good cfg.NumBoards tdc b = true ∧
          count_sync_evt cfg.NumBoards tdc = cfg.NumBoards
      · rw [if_pos ⟨hg.1, rfl, hg.2⟩, ih, if_neg (by rintro ⟨h1, _⟩; omega),
          if_pos ⟨Nat.lt_succ_self b, hg⟩]
      · rw [if_neg (by rintro ⟨h1, h2, h3⟩; exact hg ⟨h1, h3⟩), ih,
          if_neg (by rintro ⟨h1, _⟩; omega),
          if_neg (by rintro ⟨_, h2⟩; exact hg h2)]
    · rw [if_neg (by rintro ⟨_, h2, _⟩; exact hb h2), ih]
      by_cases h2 : b < k ∧ event_good cfg.NumBoards tdc b = true ∧
          count_sync_evt cfg.NumBoards tdc = cfg.NumBoards
      · rw [if_pos h2, if_pos ⟨by omega, h2.2⟩]
      · rw [if_neg h2, if_neg (by rintro ⟨h3, h4⟩; exact h2 ⟨by omega, h4⟩)]

theorem WDBuff_remove_one (s : WDBuffState) (h : WDBuff_empty s = false) :
    WDBuff_remove s 1 = (1, { s with tail := (s.tail + 1) % EVT_BUF_SIZE }) := by
  have h' : ¬WDBuff_empty s = true := by simp [h]
  simp [WDBuff_remove, removeLoop, h']

theorem syncRound_eq (cfg : SyncConfig) (tdc : Nat → Nat) (fineOk : Nat → Nat → Bool)
    (st : SyncState)
    (hne : ∀ bd, bd < cfg.NumBoards → WDBuff_empty (st.bufs bd) = false) :
    syncRound cfg tdc fineOk st =
      ((List.range cfg.NumBoards).foldl (boardStep cfg tdc fineOk)
        (if count_sync_evt cfg.NumBoards tdc = cfg.NumBoards then st
         else { st with UnSyncEv_cnt := (st.UnSyncEv_cnt +
           (cfg.NumBoards - count_sync_evt cfg.NumBoards tdc)) % U64 }),
       if count_sync_evt cfg.NumBoards tdc = cfg.NumBoards then false
       else decide ((st.UnSyncEv_cnt +
         (cfg.NumBoards - count_sync_evt cfg.NumBoards tdc)) % U64 = 0)) := by
  have hany : (List.range cfg.NumBoards).any (fun bd => WDBuff_empty (st.bufs bd)) = false := by
    rw [List.any_eq_false]
    intro bd hbd
    rw [List.mem_range] at hbd
    simp [hne bd hbd]
  unfold syncRound
  rw [if_neg (by simp [hany])]

theorem syncRound_bufs (cfg : SyncConfig) (tdc : Nat → Nat) (fineOk : Nat → Nat → Bool)
    (st : SyncState)
    (hne : ∀ bd, bd < cfg.NumBoards → WDBuff_empty (st.bufs bd) = false) (b : Nat) :
    (syncRound cfg tdc fineOk st).1.bufs b =
      if b < cfg.NumBoards ∧ event_good cfg.NumBoards tdc b = true
      then (WDBuff_remove (st.bufs b) 1).2 else st.bufs b := by
  rw [syncRound_eq cfg tdc fineOk st hne]
  by_cases hc : count_sync_evt cfg.NumBoards tdc = cfg.NumBoards
  · rw [if_pos hc]; rw [foldl_boardStep_bufs]
  · rw [if_neg hc]; rw [foldl_boardStep_bufs]

theorem syncRound_Proc (cfg : SyncConfig) (tdc : Nat → Nat) (fineOk : Nat → Nat → Bool)
    (st : SyncState)
    (hne : ∀ bd, bd < cfg.NumBoards → WDBuff_empty (st.bufs bd) = false) (b : Nat) :
    (syncRound cfg tdc fineOk st).1.EvProcessed_cnt b =
      if b < cfg.NumBoards ∧ event_good cfg.NumBoards tdc b = true
      then bumpChans (cfg.Nch b) (cfg.ChannelEnable b) (st.EvProcessed_cnt b)
      else st.EvProcessed_cnt b := by
  rw [syncRound_eq cfg tdc fineOk st hne]
  by_cases hc : count_sync_evt cfg.NumBoards tdc = cfg.NumBoards
  · rw [if_pos hc]; rw [foldl_boardStep_Proc]
  · rw [if_neg hc]; rw [foldl_boardStep_Proc]

theorem syncRound_Lost (cfg : SyncConfig) (tdc : Nat → Nat) (fineOk : Nat → Nat → Bool)
    (st : SyncState)
    (hne : ∀ bd, bd < cfg.NumBoards → WDBuff_empty (st.bufs bd) = false) (b : Nat) :
    (syncRound cfg tdc fineOk st).1.EvLost_cnt b =
      if b < cfg.NumBoards ∧ event_good cfg.NumBoards tdc b = true ∧
          ¬count_sync_evt cfg.NumBoards tdc = cfg.NumBoards
      then bumpChans (cfg.Nch b) (cfg.ChannelEnable b) (st.EvLost_cnt b)
      else st.EvLost_cnt b := by
  rw [syncRound_eq cfg tdc fineOk st hne]
  by_cases hc : count_sync_evt cfg.NumBoards tdc = cfg.NumBoards
  · rw [if_pos hc]; rw [foldl_boardStep_Lost]
  · rw [if_neg hc]; rw [foldl_boardStep_Lost]

theorem syncRound_Filt (cfg : SyncConfig) (tdc : Nat → Nat) (fineOk : Nat → Nat → Bool)
    (st : SyncState)
    (hne : ∀ bd, bd < cfg.NumBoards → WDBuff_empty (st.bufs bd) = false) (b : Nat) :
    (syncRound cfg tdc fineOk st).1.EvFilt_cnt b =
      if b < cfg.NumBoards ∧ event_good cfg.NumBoards tdc b = true ∧
          count_sync_evt cfg.NumBoards tdc = cfg.NumBoards
      then bumpChans (cfg.Nch b) (fun ch => cfg.ChannelEnable b ch && fineOk b ch)
        (st.EvFilt_cnt b)
      else st.EvFilt_cnt b := by
  rw [syncRound_eq cfg tdc fineOk st hne]
  by_cases hc : count_sync_evt cfg.NumBoards tdc = cfg.NumBoards
  · rw [if_pos hc]; rw [foldl_boardStep_Filt]
  · rw [if_neg hc]; rw [foldl_boardStep_Filt]

theorem syncRound_UnSync (cfg : SyncConfig) (tdc : Nat → Nat) (fineOk : Nat → Nat → Bool)
    (st : SyncState)
    (hne : ∀ bd, bd < cfg.NumBoards → WDBuff_empty (st.bufs bd) = false) :
    (syncRound cfg tdc fineOk st).1.UnSyncEv_cnt =
      if count_sync_evt cfg.NumBoards tdc = cfg.NumBoards then st.UnSyncEv_cnt
      else (st.UnSyncEv_cnt + (cfg.NumBoards - count_sync_evt cfg.NumBoards tdc)) % U64 := by
  rw [syncRound_eq cfg tdc fineOk st hne]
  by_cases hc : count_sync_evt cfg.NumBoards tdc = cfg.NumBoards
  · rw [if_pos hc, if_pos hc]; rw [foldl_boardStep_UnSync, if_pos hc]
  · rw [if_neg hc, if_neg hc]; rw [foldl_boardStep_UnSync, if_neg hc]

theorem syncRound_warned (cfg : SyncConfig) (tdc : Nat → Nat) (fineOk : Nat → Nat → Bool)
    (st : SyncState)
    (hne : ∀ bd, bd < cfg.NumBoards → WDBuff_empty (st.bufs bd) = false) :
    (syncRound cfg tdc fineOk st).2 =
      if count_sync_evt cfg.NumBoards tdc = cfg.NumBoards then false
      else decide ((st.UnSyncEv_cnt +
        (cfg.NumBoards - count_sync_evt cfg.NumBoards tdc)) % U64 = 0) := by
  rw [syncRound_eq cfg tdc fineOk st hne]

/-- A two-board configuration with one enabled channel per board. -/
def cfgTwo : SyncConfig := ⟨2, fun _ => 1, fun _ _ => true⟩

/-- Peeked timestamps for a stray round: board 0 at tick 0, board 1 at
tick 1000 (5000 ns away, far outside the 100 ns window). -/
def tdcStray : Nat → Nat := fun bd => if bd = 0 then 0 else 1000

/-- All fine timestamps nonzero. -/
def fineAll : Nat → Nat → Bool := fun _ _ => true

/-- Both boards hold exactly one buffered event; all counters zero. -/
def stInit : SyncState :=
  ⟨fun _ => ⟨1, 0, 0⟩, fun _ _ => 0, fun _ _ => 0, fun _ _ => 0, 0⟩

/-- The state after the stray round. -/
def roundStray : SyncState := (syncRound cfgTwo tdcStray fineAll stInit).1

/-- C1 (amended): in a round where every active board's buffer is non-empty,
exactly the boards marked matched (`event_good`) have one event discarded
(`WDBuff_remove` with count 1 succeeding with 1) and their processed
counter incremented by 1 on every enabled channel; a board that is not
marked matched keeps its buffer and its processed counters unchanged, even
though it was peeked. -/
theorem C1_round_discard_amended (cfg : SyncConfig) (tdc : Nat → Nat)
    (fineOk : Nat → Nat → Bool) (st : SyncState)
    (hne : ∀ bd, bd < cfg.NumBoards → WDBuff_empty (st.bufs bd) = false) :
    ∀ bd, bd < cfg.NumBoards →
      (event_good cfg.NumBoards tdc bd = true →
        WDBuff_remove (st.bufs bd) 1 = (1, (syncRound cfg tdc fineOk st).1.bufs bd) ∧
        (∀ ch, (syncRound cfg tdc fineOk st).1.EvProcessed_cnt bd ch =
          if ch < cfg.Nch bd ∧ cfg.ChannelEnable bd ch = true
          then st.EvProcessed_cnt bd ch + 1 else st.EvProcessed_cnt bd ch)) ∧
      (event_good cfg.NumBoards tdc bd = false →
        (syncRound cfg tdc fineOk st).1.bufs bd = st.bufs bd ∧
        (syncRound cfg tdc fineOk st).1.EvProcessed_cnt bd = st.EvProcessed_cnt bd) := by
  intro bd hbd
  constructor
  · intro hg
    constructor
    · rw [syncRound_bufs cfg tdc fineOk st hne bd, if_pos ⟨hbd, hg⟩,
        WDBuff_remove_one (st.bufs bd) (hne bd hbd)]
    · intro ch
      rw [syncRound_Proc cfg tdc fineOk st hne bd, if_pos ⟨hbd, hg⟩, bumpChans_apply]
  · intro hg
    have hg' : ¬event_good cfg.NumBoards tdc bd = true := by simp [hg]
    constructor
    · rw [syncRound_bufs cfg tdc fineOk st hne bd,
        if_neg (by rintro ⟨_, h2⟩; exact hg' h2)]
    · funext ch
      rw [syncRound_Proc cfg tdc fineOk st hne bd,
        if_neg (by rintro ⟨_, h2⟩; exact hg' h2)]

/-- C1 witness: a concrete full-match round for two one-event boards (equal
timestamps), applying the amended round theorem at board 0. -/
theorem C1_round_discard_witness :
    WDBuff_empty (stInit.bufs 0) = false ∧
    event_good cfgTwo.NumBoards (fun _ => 0) 0 = true ∧
    WDBuff_remove (stInit.bufs 0) 1 =
      (1, (syncRound cfgTwo (fun _ => 0) fineAll stInit).1.bufs 0) :=
  ⟨rfl, by decide,
    ((C1_round_discard_amended cfgTwo (fun _ => 0) fineAll stInit
      (fun bd _ => rfl) 0 (by decide)).1 (by decide)).1⟩

/-- C1 counterexample: in the stray round both boards are non-empty and
peeked, but the unmatched board 1 (5000 ns past the round minimum) gets no
event discarded and no processed-counter increment, refuting the claim
that every peeked board is discarded from and counted. -/
theorem C1_counterexample :
    WDBuff_empty (stInit.bufs 0) = false ∧
    WDBuff_empty (stInit.bufs 1) = false ∧
    event_good cfgTwo.NumBoards tdcStray 1 = false ∧
    roundStray.bufs 1 = stInit.bufs 1 ∧
    roundStray.EvProcessed_cnt 1 0 = 0 := by
  decide

/-- C2 (amended): in a partial-match round the run-level unsynchronized
counter grows by the number of unmatched boards (mod 2^64), but the
per-channel lost counters are incremented on the MATCHED boards' enabled
channels (the boards whose events are discarded without full processing);
an unmatched board's lost counters are untouched.  In a full-match round
neither the lost counters nor the unsynchronized counter change. -/
theorem C2_lost_accounting_amended (cfg : SyncConfig) (tdc : Nat → Nat)
    (fineOk : Nat → Nat → Bool) (st : SyncState)
    (hne : ∀ bd, bd < cfg.NumBoards → WDBuff_empty (st.bufs bd) = false) :
    (¬count_sync_evt cfg.NumBoards tdc = cfg.NumBoards →
      (syncRound cfg tdc fineOk st).1.UnSyncEv_cnt =
        (st.UnSyncEv_cnt + (cfg.NumBoards - count_sync_evt cfg.NumBoards tdc)) % U64 ∧
      ∀ bd, bd < cfg.NumBoards →
        (event_good cfg.NumBoards tdc bd = true →
          ∀ ch, (syncRound cfg tdc fineOk st).1.EvLost_cnt bd ch =
            if ch < cfg.Nch bd ∧ cfg.ChannelEnable bd ch = true
            then st.EvLost_cnt bd ch + 1 else st.EvLost_cnt bd ch) ∧
        (event_good cfg.NumBoards tdc bd = false →
          (syncRound cfg tdc fineOk st).1.EvLost_cnt bd = st.EvLost_cnt bd)) ∧
    (count_sync_evt cfg.NumBoards tdc = cfg.NumBoards →
      (∀ b, (syncRound cfg tdc fineOk st).1.EvLost_cnt b = st.EvLost_cnt b) ∧
      (syncRound cfg tdc fineOk st).1.UnSyncEv_cnt = st.UnSyncEv_cnt) := by
  constructor
  · intro hpart
    constructor
    · rw [syncRound_UnSync cfg tdc fineOk st hne, if_neg hpart]
    · intro bd hbd
      constructor
      · intro hg ch
        rw [syncRound_Lost cfg tdc fineOk st hne bd, if_pos ⟨hbd, hg, hpart⟩,
          bumpChans_apply]
      · intro hg
        have hg' : ¬event_good cfg.NumBoards tdc bd = true := by simp [hg]
        funext ch
        rw [syncRound_Lost cfg tdc fineOk st hne bd,
          if_neg (by rintro ⟨_, h2, _⟩; exact hg' h2)]
  · intro hfull
    constructor
    · intro b
      rw [syncRound_Lost cfg tdc fineOk st hne b,
        if_neg (by rintro ⟨_, _, h3⟩; exact h3 hfull)]
    · rw [syncRound_UnSync cfg tdc fineOk st hne, if_pos hfull]

/-- C2 witness: the stray round applied through the amended theorem — the
unsynchronized counter becomes the number of unmatched boards. -/
theorem C2_lost_accounting_witness :
    ¬count_sync_evt cfgTwo.NumBoards tdcStray = cfgTwo.NumBoards ∧
    (syncRound cfgTwo tdcStray fineAll stInit).1.UnSyncEv_cnt =
      (stInit.UnSyncEv_cnt +
        (cfgTwo.NumBoards - count_sync_evt cfgTwo.NumBoards tdcStray)) % U64 :=
  ⟨by decide,
    ((C2_lost_accounting_amended cfgTwo tdcStray fineAll stInit
      (fun bd _ => rfl)).1 (by decide)).1⟩

/-- C2 counterexample: in the stray round, board 1 is the unmatched board,
yet its lost counter stays 0 while matched board 0's lost counter becomes 1
— the exact opposite of the claim's accounting; the unsynchronized counter
does grow by the number of unmatched boards (here 1). -/
theorem C2_counterexample :
    event_good cfgTwo.NumBoards tdcStray 0 = true ∧
    event_good cfgTwo.NumBoards tdcStray 1 = false ∧
    ¬count_sync_evt cfgTwo.NumBoards tdcStray = cfgTwo.NumBoards ∧
    roundStray.EvLost_cnt 1 0 = 0 ∧
    roundStray.EvLost_cnt 0 0 = 1 ∧
    roundStray.UnSyncEv_cnt = 1 := by
  decide

/-- C5: the source tests `UnSyncEv_cnt == 0` AFTER adding the positive
number of unmatched boards, so on the first partial-match round of a run
(counter going from zero to nonzero) the operator warning is NOT emitted —
the warning branch is unreachable for any realistic board count. -/
theorem C5_no_warning_on_first_desync (cfg : SyncConfig) (tdc : Nat → Nat)
    (fineOk : Nat → Nat → Bool) (st : SyncState)
    (hne : ∀ bd, bd < cfg.NumBoards → WDBuff_empty (st.bufs bd) = false)
    (hzero : st.UnSyncEv_cnt = 0)
    (hpart : ¬count_sync_evt cfg.NumBoards tdc = cfg.NumBoards)
    (hmax : cfg.NumBoards ≤ MAX_BD) :
    (syncRound cfg tdc fineOk st).1.UnSyncEv_cnt ≠ 0 ∧
    (syncRound cfg tdc fineOk st).2 = false := by
  have hcnt : count_sync_evt cfg.NumBoards tdc ≤ cfg.NumBoards := by
    have h1 := List.countP_le_length
      (p := fun bd => event_good cfg.NumBoards tdc bd) (l := List.range cfg.NumBoards)
    rw [List.length_range] at h1
    exact h1
  have hmax4 : MAX_BD < U64 := by decide
  have hdiff2 : cfg.NumBoards - count_sync_evt cfg.NumBoards tdc < U64 := by omega
  have hval : (st.UnSyncEv_cnt + (cfg.NumBoards - count_sync_evt cfg.NumBoards tdc)) % U64
      = cfg.NumBoards - count_sync_evt cfg.NumBoards tdc := by
    rw [hzero, Nat.zero_add]
    exact Nat.mod_eq_of_lt hdiff2
  constructor
  · rw [syncRound_UnSync cfg tdc fineOk st hne, if_neg hpart, hval]
    omega
  · rw [syncRound_warned cfg tdc fineOk st hne, if_neg hpart, hval]
    have hz : ¬(cfg.NumBoards - count_sync_evt cfg.NumBoards tdc = 0) := by omega
    simp [hz]

/-- C5 witness: the stray round is the first partial round of its run
(counter 0 before), the counter transitions to nonzero, and no warning is
emitted. -/
theorem C5_no_warning_witness :
    stInit.UnSyncEv_cnt = 0 ∧
    ¬count_sync_evt cfgTwo.NumBoards tdcStray = cfgTwo.NumBoards ∧
    (syncRound cfgTwo tdcStray fineAll stInit).1.UnSyncEv_cnt ≠ 0 ∧
    (syncRound cfgTwo tdcStray fineAll stInit).2 = false :=
  ⟨rfl, by decide,
    (C5_no_warning_on_first_desync cfgTwo tdcStray fineAll stInit
      (fun bd _ => rfl) rfl (by decide) (by decide)).1,
    (C5_no_warning_on_first_desync cfgTwo tdcStray fineAll stInit
      (fun bd _ => rfl) rfl (by decide) (by decide)).2⟩

/-- C8: a board is marked matched exactly when its peeked timestamp's offset
from the round minimum, at 5 ns per tick, is at most SYNC_WIN = 100 ns
(inclusive); concretely, two boards 20 ticks (100 ns) apart are both
matched, while at 21 ticks (105 ns) the later board is not. -/
theorem C8_sync_window_boundary :
    (∀ (N : Nat) (tdc : Nat → Nat) (bd : Nat),
      (tdc bd - TDC_min N tdc) * 5 < U64 →
      (event_good N tdc bd = true ↔ (tdc bd - TDC_min N tdc) * 5 ≤ SYNC_WIN)) ∧
    (∀ t : Nat, t + 21 < U64 →
      (event_good 2 (fun bd => if bd = 0 then t else t + 20) 0 = true ∧
        event_good 2 (fun bd => if bd = 0 then t else t + 20) 1 = true) ∧
      (event_good 2 (fun bd => if bd = 0 then t else t + 21) 0 = true ∧
        event_good 2 (fun bd => if bd = 0 then t else t + 21) 1 = false)) := by
  constructor
  · intro N tdc bd hlt
    unfold event_good
    rw [Nat.mod_eq_of_lt hlt]
    exact decide_eq_true_iff
  · intro t ht
    have hmin20 : TDC_min 2 (fun bd => if bd = 0 then t else t + 20) = t := by
      show (if (if (1 : Nat) = 0 then t else t + 20) < (if (0 : Nat) = 0 then t else t + 20)
        then (if (1 : Nat) = 0 then t else t + 20)
        else (if (0 : Nat) = 0 then t else t + 20)) = t
      rw [if_neg (by omega : ¬(1 : Nat) = 0), if_pos (rfl : (0 : Nat) = 0), if_neg (by omega)]
    have hmin21 : TDC_min 2 (fun bd => if bd = 0 then t else t + 21) = t := by
      show (if (if (1 : Nat) = 0 then t else t + 21) < (if (0 : Nat) = 0 then t else t + 21)
        then (if (1 : Nat) = 0 then t else t + 21)
        else (if (0 : Nat) = 0 then t else t + 21)) = t
      rw [if_neg (by omega : ¬(1 : Nat) = 0), if_pos (rfl : (0 : Nat) = 0), if_neg (by omega)]
    have hs : t - t = 0 := Nat.sub_self t
    have h20 : t + 20 - t = 20 := by omega
    have h21 : t + 21 - t = 21 := by omega
    refine ⟨⟨?_, ?_⟩, ⟨?_, ?_⟩⟩
    · unfold event_good
      rw [hmin20]
      show decide (((if (0 : Nat) = 0 then t else t + 20) - t) * 5 % U64 ≤ SYNC_WIN) = true
      rw [if_pos (rfl : (0 : Nat) = 0), hs]
      decide
    · unfold event_good
      rw [hmin20]
      show decide (((if (1 : Nat) = 0 then t else t + 20) - t) * 5 % U64 ≤ SYNC_WIN) = true
      rw [if_neg (by omega : ¬(1 : Nat) = 0), h20]
      decide
    · unfold event_good
      rw [hmin21]
      show decide (((if (0 : Nat) = 0 then t else t + 21) - t) * 5 % U64 ≤ SYNC_WIN) = true
      rw [if_pos (rfl : (0 : Nat) = 0), hs]
      decide
    · unfold event_good
      rw [hmin21]
      show decide (((if (1 : Nat) = 0 then t else t + 21) - t) * 5 % U64 ≤ SYNC_WIN) = false
      rw [if_neg (by omega : ¬(1 : Nat) = 0), h21]
      decide

/-- C8 witness: the boundary facts instantiated at t = 0, applying the
window theorem with its overflow hypothesis discharged. -/
theorem C8_sync_window_witness :
    (0 : Nat) + 21 < U64 ∧
    ((event_good 2 (fun bd => if bd = 0 then 0 else 0 + 20) 0 = true ∧
        event_good 2 (fun bd => if bd = 0 then 0 else 0 + 20) 1 = true) ∧
      (event_good 2 (fun bd => if bd = 0 then 0 else 0 + 21) 0 = true ∧
        event_good 2 (fun bd => if bd = 0 then 0 else 0 + 21) 1 = false)) :=
  ⟨by decide, C8_sync_window_boundary.2 0 (by decide)⟩

/-- C9: in every round in which all active boards' buffers are non-empty,
some board attains the round-minimum timestamp, has offset 0 and is
therefore matched (the window is inclusive), so the matched count is at
least 1 and that board has exactly one event removed from its ring buffer:
a round draining no buffer is impossible. -/
theorem C9_round_always_drains (cfg : SyncConfig) (tdc : Nat → Nat)
    (fineOk : Nat → Nat → Bool) (st : SyncState)
    (hN : 1 ≤ cfg.NumBoards)
    (hne : ∀ bd, bd < cfg.NumBoards → WDBuff_empty (st.bufs bd) = false) :
    1 ≤ count_sync_evt cfg.NumBoards tdc ∧
    ∃ bd, bd < cfg.NumBoards ∧ tdc bd = TDC_min cfg.NumBoards tdc ∧
      event_good cfg.NumBoards tdc bd = true ∧
      WDBuff_remove (st.bufs bd) 1 = (1, (syncRound cfg tdc fineOk st).1.bufs bd) := by
  obtain ⟨bd0, hbd0, hmin⟩ := TDC_min_attained cfg.NumBoards tdc hN
  have h0 : tdc bd0 - TDC_min cfg.NumBoards tdc = 0 := by omega
  have hgood : event_good cfg.NumBoards tdc bd0 = true := by
    unfold event_good
    rw [h0]
    decide
  constructor
  · have hpos : 0 < (List.range cfg.NumBoards).countP
        (fun bd => event_good cfg.NumBoards tdc bd) := by
      rw [List.countP_pos_iff]
      exact ⟨bd0, List.mem_range.mpr hbd0, hgood⟩
    exact hpos
  · refine ⟨bd0, hbd0, hmin.symm, hgood, ?_⟩
    rw [syncRound_bufs cfg tdc fineOk st hne bd0, if_pos ⟨hbd0, hgood⟩,
      WDBuff_remove_one (st.bufs bd0) (hne bd0 hbd0)]

/-- C9 witness: the stray round drains board 0 (the round-minimum board)
even though board 1 stays unmatched. -/
theorem C9_round_always_drains_witness :
    1 ≤ cfgTwo.NumBoards ∧
    1 ≤ count_sync_evt cfgTwo.NumBoards tdcStray ∧
    (∃ bd, bd < cfgTwo.NumBoards ∧ tdcStray bd = TDC_min cfgTwo.NumBoards tdcStray ∧
      event_good cfgTwo.NumBoards tdcStray bd = true ∧
      WDBuff_remove (stInit.bufs bd) 1 =
        (1, (syncRound cfgTwo tdcStray fineAll stInit).1.bufs bd)) :=
  ⟨by decide,
    (C9_round_always_drains cfgTwo tdcStray fineAll stInit (by decide) (fun bd _ => rfl)).1,
    (C9_round_always_drains cfgTwo tdcStray fineAll stInit (by decide) (fun bd _ => rfl)).2⟩

/-- Global run flags read by the per-channel block of UpdateStatistics:
`WDrun.IntegratedRates`, `WDrun.AcqRun`, and the already-computed
`WDstats.AcqRealTime` (milliseconds). -/
structure RunCtx where
  IntegratedRates : Bool
  AcqRun : Bool
  AcqRealTime : ℚ
deriving DecidableEq

/-- The per-(board, channel) slice of `WDstats` used by the per-channel
block of UpdateStatistics (lines 88-196 of WDStats.c).  uint64 counters
and nanosecond timestamps are `Nat`; C float rate fields are modelled as
exact rationals. -/
structure ChStats where
  EvRead_cnt : Nat
  EvRead_pcnt : Nat
  EvRead_dcnt : Nat
  EvFilt_cnt : Nat
  EvFilt_pcnt : Nat
  EvProcessed_cnt : Nat
  EvProcessed_pcnt : Nat
  EvInput_cnt : Nat
  EvInput_pcnt : Nat
  EvLost_cnt : Nat
  EvLost_pcnt : Nat
  BusyTimeGap : Nat
  LatestReadTstamp : Nat
  PrevReadTstamp : Nat
  LatestProcTstamp : Nat
  PrevProcTstamp : Nat
  ICRUpdateTime : Nat
  PrevICRUpdateTime : Nat
  LostTrgUpdateTime : Nat
  PrevLostTrgUpdateTime : Nat
  EvRead_rate : ℚ
  EvFilt_rate : ℚ
  EvOutput_rate : ℚ
  EvInput_rate : ℚ
  EvLost_rate : ℚ
  DeadTime : ℚ
  BusyTime : ℚ
  MatchingRatio : ℚ
deriving DecidableEq

/-- Lines 88-106: zero the read/filtered/output rates, recompute them in
integrated mode (cumulative count over device time since start) or
instantaneous mode (delta over device-time delta, only when the read
timestamp advanced), copy the filtered rate into the output rate, then
clamp the filtered rate from above by the read rate and the output rate
from below by zero. -/
def statsRates (run : RunCtx) (st : ChStats) : ChStats :=
  let st1 := { st with EvRead_rate := 0, EvFilt_rate := 0, EvOutput_rate := 0 }
  let st2 :=
    if run.IntegratedRates = true ∧ 0 < st1.LatestReadTstamp then
      { st1 with
        EvRead_rate := (st1.EvRead_cnt : ℚ) / ((st1.LatestReadTstamp : ℚ) / 1000000000)
        EvFilt_rate := (st1.EvFilt_cnt : ℚ) / ((st1.LatestReadTstamp : ℚ) / 1000000000) }
    else if st1.PrevReadTstamp < st1.LatestReadTstamp then
      { st1 with
        EvRead_rate := (u64sub st1.EvRead_cnt st1.EvRead_pcnt : ℚ) /
          ((u64sub st1.LatestReadTstamp st1.PrevReadTstamp : ℚ) / 1000000000)
        EvFilt_rate := (u64sub st1.EvFilt_cnt st1.EvFilt_pcnt : ℚ) /
          ((u64sub st1.LatestReadTstamp st1.PrevReadTstamp : ℚ) / 1000000000) }
    else st1
  let st3 := { st2 with EvOutput_rate := st2.EvFilt_rate }
  let st4 :=
    if st3.EvRead_rate < st3.EvFilt_rate then { st3 with EvFilt_rate := st3.EvRead_rate }
    else st3
  if st4.EvOutput_rate < 0 then { st4 with EvOutput_rate := 0 } else st4

/-- Lines 108-132: the input-trigger (ICR) rate.  Zero when acquisition is
stopped; the -1 "not available" sentinel when the hardware counter is
all-bits-set; zero when the read rate is zero or no ICR update ever came;
otherwise the integrated / instantaneous split on the dedicated ICR update
timestamp, falling back to the read rate when the ICR has not refreshed
for more than 5 s of the acquisition real time. -/
def statsInput (run : RunCtx) (st : ChStats) : ChStats :=
  if run.AcqRun = false then { st with EvInput_rate := 0 }
  else if st.EvInput_cnt = U64 - 1 then { st with EvInput_rate := -1 }
  else if st.EvRead_rate = 0 ∨ st.ICRUpdateTime = 0 then { st with EvInput_rate := 0 }
  else if run.IntegratedRates = true then
    { st with
      EvInput_rate := (st.EvInput_cnt : ℚ) / ((st.ICRUpdateTime : ℚ) / 1000000000)
      EvInput_pcnt := st.EvInput_cnt
      PrevICRUpdateTime := st.ICRUpdateTime }
  else if st.PrevICRUpdateTime < st.ICRUpdateTime then
    { st with
      EvInput_rate := (u64sub st.EvInput_cnt st.EvInput_pcnt : ℚ) /
        ((u64sub st.ICRUpdateTime st.PrevICRUpdateTime : ℚ) / 1000000000)
      EvInput_pcnt := st.EvInput_cnt
      PrevICRUpdateTime := st.ICRUpdateTime }
  else if (st.PrevICRUpdateTime : ℚ) / 1000000 < run.AcqRealTime - 5000 then
    { st with EvInput_rate := st.EvRead_rate }
  else st

/-- Lines 135-136: an available input rate smaller than the read rate (an
ICR update-granularity artifact) is forced up to the read rate. -/
def statsInputForce (st : ChStats) : ChStats :=
  if ¬st.EvInput_rate = -1 ∧ st.EvInput_rate < st.EvRead_rate then
    { st with EvInput_rate := st.EvRead_rate }
  else st

/-- Lines 138-156: the lost-trigger rate.  The C guard `EvLost_cnt < 0`
compares an unsigned counter against zero and can never be taken; it is
kept verbatim on the Nat counter.  Otherwise the integrated /
instantaneous split on the dedicated lost-trigger update timestamp, and
zero when neither applies. -/
def statsLostRate (run : RunCtx) (st : ChStats) : ChStats :=
  if st.EvLost_cnt < 0 then { st with EvLost_rate := -1 }
  else if run.IntegratedRates = true ∧ 0 < st.LostTrgUpdateTime then
    { st with
      EvLost_rate := (st.EvLost_cnt : ℚ) / ((st.LostTrgUpdateTime : ℚ) / 1000000000)
      EvLost_pcnt := st.EvLost_cnt
      PrevLostTrgUpdateTime := st.LostTrgUpdateTime }
  else if st.PrevLostTrgUpdateTime < st.LostTrgUpdateTime then
    { st with
      EvLost_rate := (u64sub st.EvLost_cnt st.EvLost_pcnt : ℚ) /
        ((u64sub st.LostTrgUpdateTime st.PrevLostTrgUpdateTime : ℚ) / 1000000000)
      EvLost_pcnt := st.EvLost_cnt
      PrevLostTrgUpdateTime := st.LostTrgUpdateTime }
  else { st with EvLost_rate := 0 }

/-- Lines 157-158: the lost rate is clamped from above by the input rate. -/
def statsLostClamp (st : ChStats) : ChStats :=
  if st.EvInput_rate < st.EvLost_rate then { st with EvLost_rate := st.EvInput_rate }
  else st

/-- Lines 160-168: dead time `1 - (input - lost)/input` when the input rate
is positive and the lost rate is available (non-negative), else 0; then
clamped into [0, 1]. -/
def statsDeadTime (st : ChStats) : ChStats :=
  let st1 :=
    if 0 < st.EvInput_rate ∧ 0 ≤ st.EvLost_rate then
      { st with DeadTime := 1 - (st.EvInput_rate - st.EvLost_rate) / st.EvInput_rate }
    else { st with DeadTime := 0 }
  let st2 := if st1.DeadTime < 0 then { st1 with DeadTime := 0 } else st1
  if 1 < st2.DeadTime then { st2 with DeadTime := 1 } else st2

/-- Lines 170-179: busy-time fraction from the accumulated busy gap minus
one nominal trigger period, over the read-timestamp delta; clamped into
[0, 1]. -/
def statsBusyTime (st : ChStats) : ChStats :=
  let st1 := { st with BusyTime := 0 }
  let st2 :=
    if st1.PrevReadTstamp < st1.LatestReadTstamp then
      { st1 with BusyTime :=
        ((st1.BusyTimeGap : ℚ) -
          (if 0 < st1.EvInput_rate then 1000000000 / st1.EvInput_rate else 0)) /
          (u64sub st1.LatestReadTstamp st1.PrevReadTstamp : ℚ) }
    else st1
  let st3 := if st2.BusyTime < 0 then { st2 with BusyTime := 0 } else st2
  if 1 < st3.BusyTime then { st3 with BusyTime := 1 } else st3

/-- Lines 182-186: matching ratio = delta filtered over delta processed,
zero when no new events were processed. -/
def statsMatching (st : ChStats) : ChStats :=
  if st.EvProcessed_pcnt < st.EvProcessed_cnt then
    { st with MatchingRatio := (u64sub st.EvFilt_cnt st.EvFilt_pcnt : ℚ) /
      (u64sub st.EvProcessed_cnt st.EvProcessed_pcnt : ℚ) }
  else { st with MatchingRatio := 0 }

/-- Lines 189-196: unconditional snapshot advancement — current counters
into their previous slots, latest timestamps into previous timestamps,
and the busy-gap accumulator zeroed. -/
def statsSnapshot (st : ChStats) : ChStats :=
  { st with
    EvRead_dcnt := u64sub st.EvRead_cnt st.EvRead_pcnt
    EvRead_pcnt := st.EvRead_cnt
    EvFilt_pcnt := st.EvFilt_cnt
    EvProcessed_pcnt := st.EvProcessed_cnt
    PrevReadTstamp := st.LatestReadTstamp
    PrevProcTstamp := st.LatestProcTstamp
    BusyTimeGap := 0 }

/-- The whole per-enabled-channel body of UpdateStatistics (lines 88-196),
stage by stage in source order. -/
def updateChannelStats (run : RunCtx) (st : ChStats) : ChStats :=
  statsSnapshot (statsMatching (statsBusyTime (statsDeadTime (statsLostClamp
    (statsLostRate run (statsInputForce (statsInput run (statsRates run st))))))))

theorem statsRates_frame (run : RunCtx) (st : ChStats) :
    (statsRates run st).EvInput_cnt = st.EvInput_cnt ∧
    (statsRates run st).LatestReadTstamp = st.LatestReadTstamp ∧
    (statsRates run st).PrevReadTstamp = st.PrevReadTstamp := by
  unfold statsRates
  dsimp only
  repeat' split
  all_goals exact ⟨rfl, rfl, rfl⟩

theorem statsInput_frame (run : RunCtx) (st : ChStats) :
    (statsInput run st).EvRead_rate = st.EvRead_rate ∧
    (statsInput run st).EvFilt_rate = st.EvFilt_rate ∧
    (statsInput run st).LatestReadTstamp = st.LatestReadTstamp ∧
    (statsInput run st).PrevReadTstamp = st.PrevReadTstamp := by
  unfold statsInput
  repeat' split
  all_goals exact ⟨rfl, rfl, rfl, rfl⟩

theorem statsInputForce_frame (st : ChStats) :
    (statsInputForce st).EvRead_rate = st.EvRead_rate ∧
    (statsInputForce st).EvFilt_rate = st.EvFilt_rate ∧
    (statsInputForce st).EvLost_rate = st.EvLost_rate ∧
    (statsInputForce st).LatestReadTstamp = st.LatestReadTstamp ∧
    (statsInputForce st).PrevReadTstamp = st.PrevReadTstamp := by
  unfold statsInputForce
  repeat' split
  all_goals exact ⟨rfl, rfl, rfl, rfl, rfl⟩

theorem statsLostRate_frame (run : RunCtx) (st : ChStats) :
    (statsLostRate run st).EvRead_rate = st.EvRead_rate ∧
    (statsLostRate run st).EvFilt_rate = st.EvFilt_rate ∧
    (statsLostRate run st).EvInput_rate = st.EvInput_rate ∧
    (statsLostRate run st).LatestReadTstamp = st.LatestReadTstamp ∧
    (statsLostRate run st).PrevReadTstamp = st.PrevReadTstamp := by
  unfold statsLostRate
  repeat' split
  all_goals exact ⟨rfl, rfl, rfl, rfl, rfl⟩

theorem statsLostClamp_frame (st : ChStats) :
    (statsLostClamp st).EvRead_rate = st.EvRead_rate ∧
    (statsLostClamp st).EvFilt_rate = st.EvFilt_rate ∧
    (statsLostClamp st).EvInput_rate = st.EvInput_rate ∧
    (statsLostClamp st).LatestReadTstamp = st.LatestReadTstamp ∧
    (statsLostClamp st).PrevReadTstamp = st.PrevReadTstamp := by
  unfold statsLostClamp
  repeat' split
  all_goals exact ⟨rfl, rfl, rfl, rfl, rfl⟩

theorem statsDeadTime_frame (st : ChStats) :
    (statsDeadTime st).EvRead_rate = st.EvRead_rate ∧
    (statsDeadTime st).EvFilt_rate = st.EvFilt_rate ∧
    (statsDeadTime st).EvInput_rate = st.EvInput_rate ∧
    (statsDeadTime st).EvLost_rate = st.EvLost_rate ∧
    (statsDeadTime st).LatestReadTstamp = st.LatestReadTstamp ∧
    (statsDeadTime st).PrevReadTstamp = st.PrevReadTstamp := by
  unfold statsDeadTime
  dsimp only
  repeat' split
  all_goals exact ⟨rfl, rfl, rfl, rfl, rfl, rfl⟩

theorem statsBusyTime_frame (st : ChStats) :
    (statsBusyTime st).EvRead_rate = st.EvRead_rate ∧
    (statsBusyTime st).EvFilt_rate = st.EvFilt_rate ∧
    (statsBusyTime st).EvInput_rate = st.EvInput_rate ∧
    (statsBusyTime st).EvLost_rate = st.EvLost_rate ∧
    (statsBusyTime st).DeadTime = st.DeadTime ∧
    (statsBusyTime st).LatestReadTstamp = st.LatestReadTstamp ∧
    (statsBusyTime st).PrevReadTstamp = st.PrevReadTstamp := by
  unfold statsBusyTime
  dsimp only
  repeat' split
  all_goals exact ⟨rfl, rfl, rfl, rfl, rfl, rfl, rfl⟩

theorem statsMatching_frame (st : ChStats) :
    (statsMatching st).EvRead_rate = st.EvRead_rate ∧
    (statsMatching st).EvFilt_rate = st.EvFilt_rate ∧
    (statsMatching st).EvInput_rate = st.EvInput_rate ∧
    (statsMatching st).EvLost_rate = st.EvLost_rate ∧
    (statsMatching st).DeadTime = st.DeadTime ∧
    (statsMatching st).LatestReadTstamp = st.LatestReadTstamp ∧
    (statsMatching st).PrevReadTstamp = st.PrevReadTstamp := by
  unfold statsMatching
  repeat' split
  all_goals exact ⟨rfl, rfl, rfl, rfl, rfl, rfl, rfl⟩

theorem statsSnapshot_frame (st : ChStats) :
    (statsSnapshot st).EvRead_rate = st.EvRead_rate ∧
    (statsSnapshot st).EvFilt_rate = st.EvFilt_rate ∧
    (statsSnapshot st).EvInput_rate = st.EvInput_rate ∧
    (statsSnapshot st).EvLost_rate = st.EvLost_rate ∧
    (statsSnapshot st).DeadTime = st.DeadTime ∧
    (statsSnapshot st).LatestReadTstamp = st.LatestReadTstamp ∧
    (statsSnapshot st).PrevReadTstamp = st.LatestReadTstamp :=
  ⟨rfl, rfl, rfl, rfl, rfl, rfl, rfl⟩

set_option maxRecDepth 8000

theorem statsRates_stalled (run : RunCtx) (st : ChStats)
    (hint : run.IntegratedRates = false)
    (hst : st.LatestReadTstamp ≤ st.PrevReadTstamp) :
    (statsRates run st).EvRead_rate = 0 ∧ (statsRates run st).EvFilt_rate = 0 := by
  have h1 : ¬(run.IntegratedRates = true ∧ 0 < st.LatestReadTstamp) := by
    rintro ⟨h, -⟩
    rw [hint] at h
    exact Bool.false_ne_true h
  have h2 : ¬(st.PrevReadTstamp < st.LatestReadTstamp) := by omega
  unfold statsRates
  dsimp only
  rw [if_neg h1, if_neg h2]
  simp

theorem statsTail_read_frame (run : RunCtx) (A : ChStats) :
    (statsSnapshot (statsMatching (statsBusyTime (statsDeadTime (statsLostClamp
      (statsLostRate run (statsInputForce (statsInput run A)))))))).EvRead_rate
        = A.EvRead_rate ∧
    (statsSnapshot (statsMatching (statsBusyTime (statsDeadTime (statsLostClamp
      (statsLostRate run (statsInputForce (statsInput run A)))))))).EvFilt_rate
        = A.EvFilt_rate ∧
    (statsSnapshot (statsMatching (statsBusyTime (statsDeadTime (statsLostClamp
      (statsLostRate run (statsInputForce (statsInput run A)))))))).LatestReadTstamp
        = A.LatestReadTstamp ∧
    (statsSnapshot (statsMatching (statsBusyTime (statsDeadTime (statsLostClamp
      (statsLostRate run (statsInputForce (statsInput run A)))))))).PrevReadTstamp
        = A.LatestReadTstamp := by
  obtain ⟨b1, b2, b3, -⟩ := statsInput_frame run A
  obtain ⟨c1, c2, -, c4, -⟩ := statsInputForce_frame (statsInput run A)
  obtain ⟨d1, d2, -, d4, -⟩ :=
    statsLostRate_frame run (statsInputForce (statsInput run A))
  obtain ⟨e1, e2, -, e4, -⟩ :=
    statsLostClamp_frame (statsLostRate run (statsInputForce (statsInput run A)))
  obtain ⟨f1, f2, -, -, f5, -⟩ :=
    statsDeadTime_frame (statsLostClamp (statsLostRate run (statsInputForce (statsInput run A))))
  obtain ⟨g1, g2, -, -, -, g6, -⟩ :=
    statsBusyTime_frame (statsDeadTime (statsLostClamp (statsLostRate run
      (statsInputForce (statsInput run A)))))
  obtain ⟨m1, m2, -, -, -, m6, -⟩ :=
    statsMatching_frame (statsBusyTime (statsDeadTime (statsLostClamp (statsLostRate run
      (statsInputForce (statsInput run A))))))
  obtain ⟨s1, s2, -, -, -, s6, s7⟩ :=
    statsSnapshot_frame (statsMatching (statsBusyTime (statsDeadTime (statsLostClamp
      (statsLostRate run (statsInputForce (statsInput run A)))))))
  refine ⟨?_, ?_, ?_, ?_⟩
  · rw [s1, m1, g1, f1, e1, d1, c1, b1]
  · rw [s2, m2, g2, f2, e2, d2, c2, b2]
  · rw [s6, m6, g6, f5, e4, d4, c4, b3]
  · rw [s7, m6, g6, f5, e4, d4, c4, b3]

theorem updateChannelStats_tstamps (run : RunCtx) (st : ChStats) :
    (updateChannelStats run st).LatestReadTstamp = st.LatestReadTstamp ∧
    (updateChannelStats run st).PrevReadTstamp = st.LatestReadTstamp := by
  obtain ⟨-, -, t3, t4⟩ := statsTail_read_frame run (statsRates run st)
  obtain ⟨-, r2, -⟩ := statsRates_frame run st
  unfold updateChannelStats
  exact ⟨by rw [t3, r2], by rw [t4, r2]⟩

theorem statsDead_tail_frame (F : ChStats) :
    (statsSnapshot (statsMatching (statsBusyTime F))).EvInput_rate = F.EvInput_rate ∧
    (statsSnapshot (statsMatching (statsBusyTime F))).EvLost_rate = F.EvLost_rate ∧
    (statsSnapshot (statsMatching (statsBusyTime F))).DeadTime = F.DeadTime := by
  obtain ⟨-, -, g3, g4, g5, -, -⟩ := statsBusyTime_frame F
  obtain ⟨-, -, m3, m4, m5, -, -⟩ := statsMatching_frame (statsBusyTime F)
  obtain ⟨-, -, s3, s4, s5, -, -⟩ := statsSnapshot_frame (statsMatching (statsBusyTime F))
  exact ⟨by rw [s3, m3, g3], by rw [s4, m4, g4], by rw [s5, m5, g5]⟩

theorem statsInput_sentinel (run : RunCtx) (st : ChStats)
    (hAcq : run.AcqRun = true) (hcnt : st.EvInput_cnt = U64 - 1) :
    statsInput run st = { st with EvInput_rate := -1 } := by
  unfold statsInput
  rw [if_neg (by simp [hAcq]), if_pos hcnt]

theorem statsInputForce_sentinel (st : ChStats) (h : st.EvInput_rate = -1) :
    statsInputForce st = st := by
  unfold statsInputForce
  rw [if_neg (by rintro ⟨h1, -⟩; exact h1 h)]

theorem statsLostRate_nonneg (run : RunCtx) (st : ChStats) :
    0 ≤ (statsLostRate run st).EvLost_rate := by
  unfold statsLostRate
  split
  · rename_i h
    exact absurd h (Nat.not_lt_zero _)
  · split
    · exact div_nonneg (Nat.cast_nonneg _) (div_nonneg (Nat.cast_nonneg _) (by norm_num))
    · split
      · exact div_nonneg (Nat.cast_nonneg _) (div_nonneg (Nat.cast_nonneg _) (by norm_num))
      · exact le_refl 0

theorem statsLostClamp_to_input (st : ChStats) (h : st.EvInput_rate < st.EvLost_rate) :
    statsLostClamp st = { st with EvLost_rate := st.EvInput_rate } := by
  unfold statsLostClamp
  rw [if_pos h]

theorem statsLostClamp_le (st : ChStats) :
    (statsLostClamp st).EvLost_rate ≤ (statsLostClamp st).EvInput_rate := by
  unfold statsLostClamp
  split
  · exact le_refl _
  · rename_i h
    exact le_of_not_lt h

theorem statsDeadTime_unavailable (st : ChStats)
    (h : ¬(0 < st.EvInput_rate ∧ 0 ≤ st.EvLost_rate)) :
    statsDeadTime st = { st with DeadTime := 0 } := by
  unfold statsDeadTime
  dsimp only
  rw [if_neg h]
  simp

/-- The dead-time clamping scenario of the spec: integrated mode, one
second of device time, 500 events read, 1000 input triggers and 1200 lost
triggers counted — so the computed input rate is 1000 and the computed
lost rate is 1200 (inconsistent input). -/
def st4 : ChStats :=
  ⟨500, 0, 0, 0, 0, 0, 0, 1000, 0, 1200, 0, 0, 1000000000, 0, 0, 0,
    1000000000, 0, 1000000000, 0, 0, 0, 0, 0, 0, 0, 0, 0⟩

/-- Integrated-mode running context for the dead-time scenario. -/
def run4 : RunCtx := ⟨true, true, 1000⟩

/-- The dead-time scenario evaluated stage by stage: the computed input
rate is 1000 and the computed lost rate 1200 before the clamp; after the
clamp and the dead-time computation the lost rate is 1000 and the dead
time is 1. -/
theorem st4_stage_values :
    statsLostRate run4 (statsInputForce (statsInput run4 (statsRates run4 st4)))
      = (⟨500, 0, 0, 0, 0, 0, 0, 1000, 1000, 1200, 1200, 0, 1000000000, 0, 0, 0, 1000000000, 1000000000, 1000000000, 1000000000, 500, 0, 0, 1000, 1200, 0, 0, 0⟩ : ChStats) ∧
    updateChannelStats run4 st4 = (⟨500, 500, 500, 0, 0, 0, 0, 1000, 1000, 1200, 1200, 0, 1000000000, 1000000000, 0, 0, 1000000000, 1000000000, 1000000000, 1000000000, 500, 0, 0, 1000, 1000, 1, 0, 0⟩ : ChStats) := by
  have h1 : statsRates run4 st4 = ⟨500, 0, 0, 0, 0, 0, 0, 1000, 0, 1200, 0, 0, 1000000000, 0, 0, 0, 1000000000, 0, 1000000000, 0, 500, 0, 0, 0, 0, 0, 0, 0⟩ := by
    norm_num [statsRates, st4, run4, u64sub, U64]
  have h2 : statsInput run4 (⟨500, 0, 0, 0, 0, 0, 0, 1000, 0, 1200, 0, 0, 1000000000, 0, 0, 0, 1000000000, 0, 1000000000, 0, 500, 0, 0, 0, 0, 0, 0, 0⟩ : ChStats) = ⟨500, 0, 0, 0, 0, 0, 0, 1000, 1000, 1200, 0, 0, 1000000000, 0, 0, 0, 1000000000, 1000000000, 1000000000, 0, 500, 0, 0, 1000, 0, 0, 0, 0⟩ := by
    norm_num [statsInput, run4, u64sub, U64]
  have h3 : statsInputForce (⟨500, 0, 0, 0, 0, 0, 0, 1000, 1000, 1200, 0, 0, 1000000000, 0, 0, 0, 1000000000, 1000000000, 1000000000, 0, 500, 0, 0, 1000, 0, 0, 0, 0⟩ : ChStats) = ⟨500, 0, 0, 0, 0, 0, 0, 1000, 1000, 1200, 0, 0, 1000000000, 0, 0, 0, 1000000000, 1000000000, 1000000000, 0, 500, 0, 0, 1000, 0, 0, 0, 0⟩ := by
    norm_num [statsInputForce]
  have h4 : statsLostRate run4 (⟨500, 0, 0, 0, 0, 0, 0, 1000, 1000, 1200, 0, 0, 1000000000, 0, 0, 0, 1000000000, 1000000000, 1000000000, 0, 500, 0, 0, 1000, 0, 0, 0, 0⟩ : ChStats) = ⟨500, 0, 0, 0, 0, 0, 0, 1000, 1000, 1200, 1200, 0, 1000000000, 0, 0, 0, 1000000000, 1000000000, 1000000000, 1000000000, 500, 0, 0, 1000, 1200, 0, 0, 0⟩ := by
    norm_num [statsLostRate, run4, u64sub, U64]
  have h5 : statsLostClamp (⟨500, 0, 0, 0, 0, 0, 0, 1000, 1000, 1200, 1200, 0, 1000000000, 0, 0, 0, 1000000000, 1000000000, 1000000000, 1000000000, 500, 0, 0, 1000, 1200, 0, 0, 0⟩ : ChStats) = ⟨500, 0, 0, 0, 0, 0, 0, 1000, 1000, 1200, 1200, 0, 1000000000, 0, 0, 0, 1000000000, 1000000000, 1000000000, 1000000000, 500, 0, 0, 1000, 1000, 0, 0, 0⟩ := by
    norm_num [statsLostClamp]
  have h6 : statsDeadTime (⟨500, 0, 0, 0, 0, 0, 0, 1000, 1000, 1200, 1200, 0, 1000000000, 0, 0, 0, 1000000000, 1000000000, 1000000000, 1000000000, 500, 0, 0, 1000, 1000, 0, 0, 0⟩ : ChStats) = ⟨500, 0, 0, 0, 0, 0, 0, 1000, 1000, 1200, 1200, 0, 1000000000, 0, 0, 0, 1000000000, 1000000000, 1000000000, 1000000000, 500, 0, 0, 1000, 1000, 1, 0, 0⟩ := by
    norm_num [statsDeadTime]
  have h7 : statsBusyTime (⟨500, 0, 0, 0, 0, 0, 0, 1000, 1000, 1200, 1200, 0, 1000000000, 0, 0, 0, 1000000000, 1000000000, 1000000000, 1000000000, 500, 0, 0, 1000, 1000, 1, 0, 0⟩ : ChStats) = ⟨500, 0, 0, 0, 0, 0, 0, 1000, 1000, 1200, 1200, 0, 1000000000, 0, 0, 0, 1000000000, 1000000000, 1000000000, 1000000000, 500, 0, 0, 1000, 1000, 1, 0, 0⟩ := by
    norm_num [statsBusyTime, u64sub, U64]
  have h8 : statsMatching (⟨500, 0, 0, 0, 0, 0, 0, 1000, 1000, 1200, 1200, 0, 1000000000, 0, 0, 0, 1000000000, 1000000000, 1000000000, 1000000000, 500, 0, 0, 1000, 1000, 1, 0, 0⟩ : ChStats) = ⟨500, 0, 0, 0, 0, 0, 0, 1000, 1000, 1200, 1200, 0, 1000000000, 0, 0, 0, 1000000000, 1000000000, 1000000000, 1000000000, 500, 0, 0, 1000, 1000, 1, 0, 0⟩ := by
    norm_num [statsMatching, u64sub, U64]
  have h9 : statsSnapshot (⟨500, 0, 0, 0, 0, 0, 0, 1000, 1000, 1200, 1200, 0, 1000000000, 0, 0, 0, 1000000000, 1000000000, 1000000000, 1000000000, 500, 0, 0, 1000, 1000, 1, 0, 0⟩ : ChStats) = ⟨500, 500, 500, 0, 0, 0, 0, 1000, 1000, 1200, 1200, 0, 1000000000, 1000000000, 0, 0, 1000000000, 1000000000, 1000000000, 1000000000, 500, 0, 0, 1000, 1000, 1, 0, 0⟩ := by
    norm_num [statsSnapshot, u64sub, U64]
  constructor
  · rw [h1, h2, h3, h4]
  · unfold updateChannelStats
    rw [h1, h2, h3, h4, h5, h6, h7, h8, h9]

/-- C4 (amended): the lost rate can never exceed the input rate after an
update (the clamp of lines 157-158), and in the spec's synthetic scenario
(input rate 1000, lost rate 1200) the lost rate is indeed clamped down to
1000 — but the resulting dead time is 1 (all input triggers counted lost:
`1 - (1000 - 1000)/1000`), not 0; it is in particular not negative. -/
theorem C4_deadtime_clamp_amended :
    (∀ (run : RunCtx) (st : ChStats),
      (updateChannelStats run st).EvLost_rate ≤ (updateChannelStats run st).EvInput_rate) ∧
    ((statsLostRate run4 (statsInputForce (statsInput run4 (statsRates run4 st4)))).EvLost_rate
        = 1200 ∧
      (statsLostRate run4 (statsInputForce (statsInput run4 (statsRates run4 st4)))).EvInput_rate
        = 1000 ∧
      (updateChannelStats run4 st4).EvLost_rate = 1000 ∧
      (updateChannelStats run4 st4).DeadTime = 1 ∧
      0 ≤ (updateChannelStats run4 st4).DeadTime) := by
  constructor
  · intro run st
    obtain ⟨q1, q2, -⟩ := statsDead_tail_frame (statsDeadTime (statsLostClamp
      (statsLostRate run (statsInputForce (statsInput run (statsRates run st))))))
    obtain ⟨-, -, f3, f4, -, -⟩ := statsDeadTime_frame (statsLostClamp
      (statsLostRate run (statsInputForce (statsInput run (statsRates run st)))))
    unfold updateChannelStats
    rw [q1, q2, f3, f4]
    exact statsLostClamp_le _
  · obtain ⟨hm, hu⟩ := st4_stage_values
    rw [hm, hu]
    exact ⟨rfl, rfl, rfl, rfl, by norm_num⟩

/-- C4 counterexample: in the spec's exact scenario the computed input rate
is 1000 and the computed lost rate 1200; the clamp does bring the lost
rate down to 1000, but the resulting dead time is not 0 (it is 1). -/
theorem C4_counterexample :
    (statsLostRate run4 (statsInputForce (statsInput run4 (statsRates run4 st4)))).EvInput_rate
      = 1000 ∧
    (statsLostRate run4 (statsInputForce (statsInput run4 (statsRates run4 st4)))).EvLost_rate
      = 1200 ∧
    (updateChannelStats run4 st4).EvLost_rate = 1000 ∧
    (updateChannelStats run4 st4).DeadTime ≠ 0 := by
  obtain ⟨hm, hu⟩ := st4_stage_values
  rw [hm, hu]
  exact ⟨rfl, rfl, rfl, by norm_num⟩

/-- Instantaneous-mode running context. -/
def run7 : RunCtx := ⟨false, true, 1000⟩

/-- A channel with fresh data: 10 events read and 5 filtered during the
first second of device time, previous snapshots all zero. -/
def st7 : ChStats :=
  ⟨10, 0, 0, 5, 0, 0, 0, 0, 0, 0, 0, 0, 1000000000, 0, 0, 0, 0, 0, 0, 0,
    0, 0, 0, 0, 0, 0, 0, 0⟩

/-- A stalled channel: the read timestamp has not advanced past the
previous snapshot, and the rate fields still hold the previous update's
value 42. -/
def st7b : ChStats :=
  ⟨10, 10, 0, 5, 5, 0, 0, 0, 0, 0, 0, 0, 1000000000, 1000000000, 0, 0, 0, 0, 0, 0,
    42, 42, 0, 0, 0, 0, 0, 0⟩

/-- C7 (amended): in instantaneous mode, a channel whose read timestamp
has not advanced (LatestReadTstamp ≤ PrevReadTstamp) gets its read and
filtered rates RESET TO ZERO by the update (they are zeroed at the top of
the block and no recompute branch fires), not left at their previous
values; the snapshot still advances (PrevReadTstamp becomes
LatestReadTstamp), so a second update with unchanged cumulative counters
also reports zero rates. -/
theorem C7_stalled_rates_amended (run : RunCtx) (st : ChStats)
    (hint : run.IntegratedRates = false) :
    (st.LatestReadTstamp ≤ st.PrevReadTstamp →
      (updateChannelStats run st).EvRead_rate = 0 ∧
      (updateChannelStats run st).EvFilt_rate = 0) ∧
    (updateChannelStats run st).PrevReadTstamp = st.LatestReadTstamp ∧
    (updateChannelStats run st).LatestReadTstamp = st.LatestReadTstamp ∧
    (updateChannelStats run (updateChannelStats run st)).EvRead_rate = 0 ∧
    (updateChannelStats run (updateChannelStats run st)).EvFilt_rate = 0 := by
  have key : ∀ s : ChStats, s.LatestReadTstamp ≤ s.PrevReadTstamp →
      (updateChannelStats run s).EvRead_rate = 0 ∧
      (updateChannelStats run s).EvFilt_rate = 0 := by
    intro s hs
    obtain ⟨hA1, hA2⟩ := statsRates_stalled run s hint hs
    obtain ⟨t1, t2, -, -⟩ := statsTail_read_frame run (statsRates run s)
    unfold updateChannelStats
    exact ⟨by rw [t1, hA1], by rw [t2, hA2]⟩
  obtain ⟨hL, hP⟩ := updateChannelStats_tstamps run st
  have h2 : (updateChannelStats run st).LatestReadTstamp ≤
      (updateChannelStats run st).PrevReadTstamp := by rw [hL, hP]
  exact ⟨key st, hP, hL, (key _ h2).1, (key _ h2).2⟩

/-- C7 witness: the stalled channel st7b in instantaneous mode — rates come
out 0 (notably not the stale 42), and the previous-timestamp snapshot lands
on the latest timestamp. -/
theorem C7_stalled_rates_witness :
    run7.IntegratedRates = false ∧
    st7b.LatestReadTstamp ≤ st7b.PrevReadTstamp ∧
    (updateChannelStats run7 st7b).EvRead_rate = 0 ∧
    (updateChannelStats run7 st7b).EvFilt_rate = 0 ∧
    (updateChannelStats run7 st7b).PrevReadTstamp = st7b.LatestReadTstamp :=
  ⟨rfl, by decide,
    ((C7_stalled_rates_amended run7 st7b rfl).1 (by decide)).1,
    ((C7_stalled_rates_amended run7 st7b rfl).1 (by decide)).2,
    (C7_stalled_rates_amended run7 st7b rfl).2.1⟩


/-- The result of the first update of the fresh-data channel st7. -/
def out7 : ChStats := ⟨10, 10, 10, 5, 5, 0, 0, 0, 0, 0, 0, 0, 1000000000, 1000000000, 0, 0, 0, 0, 0, 0, 10, 5, 5, 10, 0, 0, 0, 0⟩

/-- The fresh-data channel evaluated stage by stage: the first update in
instantaneous mode reports a read rate of 10 ev/s and advances the
snapshots. -/
theorem st7_update_value : updateChannelStats run7 st7 = out7 := by
  have h1 : statsRates run7 st7 = ⟨10, 0, 0, 5, 0, 0, 0, 0, 0, 0, 0, 0, 1000000000, 0, 0, 0, 0, 0, 0, 0, 10, 5, 5, 0, 0, 0, 0, 0⟩ := by
    norm_num [statsRates, st7, run7, u64sub, U64]
  have h2 : statsInput run7 (⟨10, 0, 0, 5, 0, 0, 0, 0, 0, 0, 0, 0, 1000000000, 0, 0, 0, 0, 0, 0, 0, 10, 5, 5, 0, 0, 0, 0, 0⟩ : ChStats) = ⟨10, 0, 0, 5, 0, 0, 0, 0, 0, 0, 0, 0, 1000000000, 0, 0, 0, 0, 0, 0, 0, 10, 5, 5, 0, 0, 0, 0, 0⟩ := by
    norm_num [statsInput, run7, u64sub, U64]
  have h3 : statsInputForce (⟨10, 0, 0, 5, 0, 0, 0, 0, 0, 0, 0, 0, 1000000000, 0, 0, 0, 0, 0, 0, 0, 10, 5, 5, 0, 0, 0, 0, 0⟩ : ChStats) = ⟨10, 0, 0, 5, 0, 0, 0, 0, 0, 0, 0, 0, 1000000000, 0, 0, 0, 0, 0, 0, 0, 10, 5, 5, 10, 0, 0, 0, 0⟩ := by
    norm_num [statsInputForce]
  have h4 : statsLostRate run7 (⟨10, 0, 0, 5, 0, 0, 0, 0, 0, 0, 0, 0, 1000000000, 0, 0, 0, 0, 0, 0, 0, 10, 5, 5, 10, 0, 0, 0, 0⟩ : ChStats) = ⟨10, 0, 0, 5, 0, 0, 0, 0, 0, 0, 0, 0, 1000000000, 0, 0, 0, 0, 0, 0, 0, 10, 5, 5, 10, 0, 0, 0, 0⟩ := by
    norm_num [statsLostRate, run7, u64sub, U64]
  have h5 : statsLostClamp (⟨10, 0, 0, 5, 0, 0, 0, 0, 0, 0, 0, 0, 1000000000, 0, 0, 0, 0, 0, 0, 0, 10, 5, 5, 10, 0, 0, 0, 0⟩ : ChStats) = ⟨10, 0, 0, 5, 0, 0, 0, 0, 0, 0, 0, 0, 1000000000, 0, 0, 0, 0, 0, 0, 0, 10, 5, 5, 10, 0, 0, 0, 0⟩ := by
    norm_num [statsLostClamp]
  have h6 : statsDeadTime (⟨10, 0, 0, 5, 0, 0, 0, 0, 0, 0, 0, 0, 1000000000, 0, 0, 0, 0, 0, 0, 0, 10, 5, 5, 10, 0, 0, 0, 0⟩ : ChStats) = ⟨10, 0, 0, 5, 0, 0, 0, 0, 0, 0, 0, 0, 1000000000, 0, 0, 0, 0, 0, 0, 0, 10, 5, 5, 10, 0, 0, 0, 0⟩ := by
    norm_num [statsDeadTime]
  have h7 : statsBusyTime (⟨10, 0, 0, 5, 0, 0, 0, 0, 0, 0, 0, 0, 1000000000, 0, 0, 0, 0, 0, 0, 0, 10, 5, 5, 10, 0, 0, 0, 0⟩ : ChStats) = ⟨10, 0, 0, 5, 0, 0, 0, 0, 0, 0, 0, 0, 1000000000, 0, 0, 0, 0, 0, 0, 0, 10, 5, 5, 10, 0, 0, 0, 0⟩ := by
    norm_num [statsBusyTime, u64sub, U64]
  have h8 : statsMatching (⟨10, 0, 0, 5, 0, 0, 0, 0, 0, 0, 0, 0, 1000000000, 0, 0, 0, 0, 0, 0, 0, 10, 5, 5, 10, 0, 0, 0, 0⟩ : ChStats) = ⟨10, 0, 0, 5, 0, 0, 0, 0, 0, 0, 0, 0, 1000000000, 0, 0, 0, 0, 0, 0, 0, 10, 5, 5, 10, 0, 0, 0, 0⟩ := by
    norm_num [statsMatching, u64sub, U64]
  have h9 : statsSnapshot (⟨10, 0, 0, 5, 0, 0, 0, 0, 0, 0, 0, 0, 1000000000, 0, 0, 0, 0, 0, 0, 0, 10, 5, 5, 10, 0, 0, 0, 0⟩ : ChStats) = ⟨10, 10, 10, 5, 5, 0, 0, 0, 0, 0, 0, 0, 1000000000, 1000000000, 0, 0, 0, 0, 0, 0, 10, 5, 5, 10, 0, 0, 0, 0⟩ := by
    norm_num [statsSnapshot, u64sub, U64]
  unfold updateChannelStats out7
  rw [h1, h2, h3, h4, h5, h6, h7, h8, h9]

/-- C7 counterexample: with unchanged cumulative counters, the first update
reports a read rate of 10 ev/s but the second update reports 0 — the rates
are not "left at their values from the previous update" and the two calls
do not yield identical rates. -/
theorem C7_counterexample :
    run7.IntegratedRates = false ∧
    (updateChannelStats run7 st7).EvRead_rate = 10 ∧
    (updateChannelStats run7 (updateChannelStats run7 st7)).EvRead_rate = 0 ∧
    (updateChannelStats run7 (updateChannelStats run7 st7)).EvFilt_rate = 0 := by
  refine ⟨rfl, ?_, ?_, ?_⟩
  · rw [st7_update_value]
    rfl
  · rw [st7_update_value]
    obtain ⟨hr1, -⟩ := statsRates_stalled run7 out7 rfl (le_refl _)
    obtain ⟨t1, -, -, -⟩ := statsTail_read_frame run7 (statsRates run7 out7)
    unfold updateChannelStats
    rw [t1, hr1]
  · rw [st7_update_value]
    obtain ⟨-, hr2⟩ := statsRates_stalled run7 out7 rfl (le_refl _)
    obtain ⟨-, t2, -, -⟩ := statsTail_read_frame run7 (statsRates run7 out7)
    unfold updateChannelStats
    rw [t2, hr2]

/-- C10: when the input-trigger counter carries the all-bits-set
"unsupported" value, the input rate becomes the -1 sentinel; the lost rate
is nevertheless computed as an available, non-negative number, and the
lost-rate-must-not-exceed-input-rate clamp then overwrites it with -1,
turning a real lost-rate value into the "not available" sentinel and
leaving the dead time at 0. -/
theorem C10_sentinel_clamp (run : RunCtx) (st : ChStats)
    (hAcq : run.AcqRun = true) (hcnt : st.EvInput_cnt = U64 - 1) :
    0 ≤ (statsLostRate run (statsInputForce (statsInput run (statsRates run st)))).EvLost_rate ∧
    (updateChannelStats run st).EvInput_rate = -1 ∧
    (updateChannelStats run st).EvLost_rate = -1 ∧
    (updateChannelStats run st).DeadTime = 0 := by
  have hA := statsRates_frame run st
  have hB : statsInput run (statsRates run st)
      = { statsRates run st with EvInput_rate := -1 } :=
    statsInput_sentinel run _ hAcq (by rw [hA.1, hcnt])
  have hC : statsInputForce (statsInput run (statsRates run st))
      = { statsRates run st with EvInput_rate := -1 } := by
    rw [hB]
    exact statsInputForce_sentinel _ rfl
  have hDin : (statsLostRate run (statsInputForce (statsInput run
      (statsRates run st)))).EvInput_rate = -1 := by
    rw [hC, (statsLostRate_frame run _).2.2.1]
  have hDlost : 0 ≤ (statsLostRate run (statsInputForce (statsInput run
      (statsRates run st)))).EvLost_rate := statsLostRate_nonneg run _
  have hclamp : statsLostClamp (statsLostRate run (statsInputForce (statsInput run
        (statsRates run st))))
      = { statsLostRate run (statsInputForce (statsInput run (statsRates run st))) with
          EvLost_rate := (statsLostRate run (statsInputForce (statsInput run
            (statsRates run st)))).EvInput_rate } :=
    statsLostClamp_to_input _ (by rw [hDin]; linarith)
  have hEin : (statsLostClamp (statsLostRate run (statsInputForce (statsInput run
      (statsRates run st))))).EvInput_rate = -1 := by
    rw [hclamp]
    exact hDin
  have hElost : (statsLostClamp (statsLostRate run (statsInputForce (statsInput run
      (statsRates run st))))).EvLost_rate = -1 := by
    rw [hclamp]
    exact hDin
  have hdead : statsDeadTime (statsLostClamp (statsLostRate run (statsInputForce
        (statsInput run (statsRates run st)))))
      = { statsLostClamp (statsLostRate run (statsInputForce (statsInput run
          (statsRates run st)))) with DeadTime := 0 } := by
    refine statsDeadTime_unavailable _ ?_
    rintro ⟨h1, -⟩
    rw [hEin] at h1
    norm_num at h1
  obtain ⟨q1, q2, q3⟩ := statsDead_tail_frame (statsDeadTime (statsLostClamp
    (statsLostRate run (statsInputForce (statsInput run (statsRates run st))))))
  unfold updateChannelStats
  refine ⟨hDlost, ?_, ?_, ?_⟩
  · rw [q1, hdead]
    exact hEin
  · rw [q2, hdead]
    exact hElost
  · rw [q3, hdead]

/-- A channel whose hardware input-trigger counter is unsupported
(all bits set) while 7 lost triggers were counted over one second. -/
def st10 : ChStats :=
  ⟨0, 0, 0, 0, 0, 0, 0, U64 - 1, 0, 7, 0, 0, 0, 0, 0, 0, 0, 0,
    1000000000, 0, 0, 0, 0, 0, 0, 0, 0, 0⟩

/-- Integrated-mode running context for the sentinel scenario. -/
def run10 : RunCtx := ⟨true, true, 1000⟩

/-- C10 witness: the sentinel scenario — the pre-clamp lost rate is
available (7 ev/s ≥ 0) and the update ends with both rates at -1 and a
zero dead time. -/
theorem C10_sentinel_clamp_witness :
    run10.AcqRun = true ∧
    st10.EvInput_cnt = U64 - 1 ∧
    0 ≤ (statsLostRate run10 (statsInputForce (statsInput run10
      (statsRates run10 st10)))).EvLost_rate ∧
    (updateChannelStats run10 st10).EvInput_rate = -1 ∧
    (updateChannelStats run10 st10).EvLost_rate = -1 ∧
    (updateChannelStats run10 st10).DeadTime = 0 :=
  ⟨rfl, rfl,
    (C10_sentinel_clamp run10 st10 rfl rfl).1,
    (C10_sentinel_clamp run10 st10 rfl rfl).2.1,
    (C10_sentinel_clamp run10 st10 rfl rfl).2.2.1,
    (C10_sentinel_clamp run10 st10 rfl rfl).2.2.2⟩
